import Mathlib

/-!
Heretic CRL stat widgets (`src/heretic/crlfunc.c`) and frame loop (`src/heretic/d_main.c`).

A shallow embedding of the counter colouring functions `CRL_StatColor_Str`,
`CRL_StatColor_Val`, of the widget compositor `CRL_StatDrawer`, of the frame
orchestrator `D_Display`, of the demo loop (`D_PageTicker`, `D_AdvanceDemo`,
`D_DoAdvanceDemo`, `D_StartTitle`) and of the event loop `D_ProcessEvents`.

C `int` variables are integers; the arithmetic the code performs on them is
wrapped to 32 bits.  Global variables the code reads are fields of `State`
(`crlfunc.c`) and `Game` (`d_main.c`).  For `CRL_StatDrawer` the text sink written
by `MN_DrTextA` is the field `screen`, a list of draw commands in call order.  For
the functions of `d_main.c` the calls they make are recorded, in order, in the
field `acts`; what the callees do in turn (to the text sink, to the frame buffer,
to other globals) is not composed into these functions.
-/

namespace CRL

/-! ## Data model -/

/-- Indices of the colour translation tables `cr[...]` used by the live code. -/
inductive Color where
  | CR_GRAY
  | CR_LIGHTGRAY
  | CR_YELLOW
  | CR_RED
  | CR_GREEN
  | CR_WHITE
  deriving DecidableEq, Repr

/-- One call of the text sink: `MN_DrTextA(text, x, y, color)`. -/
structure DrawCmd where
  text : String
  x : Int
  y : Int
  color : Color
  deriving DecidableEq, Repr

/-- The fields of `CRLData` read by the drawer. -/
structure CRL_Data_t where
  numsprites : Int
  numsegs : Int
  numcheckplanes : Int
  numfindplanes : Int
  numopenings : Int
  deriving DecidableEq, Repr

/-- The fields of `CRLWidgets` read by the live code of the drawer. -/
structure CRL_Widgets_t where
  x : Int
  y : Int
  ang : Int
  deriving DecidableEq, Repr

/-- The globals `CRL_StatDrawer` reads, and the text sink it writes. -/
structure State where
  gametic : Int
  crl_widget_coords : Int
  crl_widget_playstate : Int
  crl_widget_render : Int
  crl_widget_time : Int
  crl_widget_kis : Int
  crl_widget_powerups : Int
  CRLWidgets : CRL_Widgets_t
  CRLData : CRL_Data_t
  CRL_plats_counter : Int
  CRL_lineanims_counter : Int
  CRL_MaxPlats : Int
  CRL_MaxAnims : Int
  CRL_MaxVisSprites : Int
  CRL_MaxDrawSegs : Int
  CRL_MaxVisPlanes : Int
  CRL_MaxOpenings : Int
  screen : List DrawCmd
  deriving DecidableEq, Repr

/-! ## Machine arithmetic and text formatting -/

/-- Reduction of an integer to the range of a 32-bit `int`. -/
def wrap32 (v : Int) : Int := (v + 2147483648) % 4294967296 - 2147483648

/-- The C expression `a + b` on two `int`s. -/
def add32 (a b : Int) : Int := wrap32 (a + b)

/-- Modelled from the spec: the body of `M_snprintf` (m_misc.c) is not part of
the sources; the formatted text is cut to `buf_len - 1` characters, as
`snprintf` does. -/
def M_snprintf (buf_len : Nat) (formatted : String) : String :=
  String.mk (formatted.toList.take (buf_len - 1))

/-- The format `"%d"`. -/
def fmt_d (v : Int) : String := toString v

/-- The format `"%d/%d"`: `current/limit`. -/
def fmt_d_d (a b : Int) : String := toString a ++ "/" ++ toString b

/-- Modelled from the spec: the body of `MN_DrTextA` (mn_menu.c) is not part of
the sources; the sink accepts a `(string, x, y, color)` draw command, recorded
here after the commands already on the screen. -/
def MN_DrTextA (text : String) (x y : Int) (color : Color) (s : State) : State :=
  { s with screen := s.screen ++ [⟨text, x, y, color⟩] }

/-! ## `CRL_StatColor_Str`, `CRL_StatColor_Val` -/

/-- The label colour: `crlfunc.c`, lines 43-49.  `gametic` is the global tic. -/
def CRL_StatColor_Str (gametic : Int) (val1 val2 : Int) : Color :=
  if val1 = val2 then Color.CR_LIGHTGRAY
  else if val1 ≥ val2 then
    (if Int.land gametic 8 ≠ 0 then Color.CR_GRAY else Color.CR_LIGHTGRAY)
  else Color.CR_GRAY

/-- The value colour: `crlfunc.c`, lines 51-57. -/
def CRL_StatColor_Val (gametic : Int) (val1 val2 : Int) : Color :=
  if val1 = val2 then Color.CR_YELLOW
  else if val1 ≥ val2 then
    (if Int.land gametic 8 ≠ 0 then Color.CR_RED else Color.CR_YELLOW)
  else Color.CR_GREEN

/-! ## `CRL_StatDrawer` -/

/-- The widget compositor: `crlfunc.c`, lines 74-355.  The bodies of the
`crl_widget_time`, `crl_widget_kis` and `crl_widget_powerups` blocks are
commented out in the source, so these blocks do nothing. -/
def CRL_StatDrawer (s : State) : State :=
  -- Player coords
  let s :=
    if s.crl_widget_coords ≠ 0 then
      let s := MN_DrTextA "X:" 0 30 Color.CR_GRAY s
      let s := MN_DrTextA "Y:" 0 40 Color.CR_GRAY s
      let s := MN_DrTextA "ANG:" 0 50 Color.CR_GRAY s
      let s := MN_DrTextA (M_snprintf 16 (fmt_d s.CRLWidgets.x)) 16 30 Color.CR_GREEN s
      let s := MN_DrTextA (M_snprintf 16 (fmt_d s.CRLWidgets.y)) 16 40 Color.CR_GREEN s
      MN_DrTextA (M_snprintf 16 (fmt_d s.CRLWidgets.ang)) 32 50 Color.CR_GREEN s
    else s
  let s :=
    if s.crl_widget_playstate ≠ 0 then
      let s :=
        if s.crl_widget_playstate = 1
            ∨ (s.crl_widget_playstate = 2 ∧ s.CRL_plats_counter > s.CRL_MaxPlats) then
          let s := MN_DrTextA "PLT:" 0 70
            (CRL_StatColor_Str s.gametic s.CRL_plats_counter s.CRL_MaxPlats) s
          MN_DrTextA (M_snprintf 16 (fmt_d_d s.CRL_plats_counter s.CRL_MaxPlats)) 32 70
            (CRL_StatColor_Val s.gametic s.CRL_plats_counter s.CRL_MaxPlats) s
        else s
      -- Animated lines (64 max)
      if s.crl_widget_playstate = 1
          ∨ (s.crl_widget_playstate = 2 ∧ s.CRL_lineanims_counter > s.CRL_MaxAnims) then
        let s := MN_DrTextA "ANI:" 0 80
          (CRL_StatColor_Str s.gametic s.CRL_lineanims_counter s.CRL_MaxAnims) s
        MN_DrTextA (M_snprintf 16 (fmt_d_d s.CRL_lineanims_counter s.CRL_MaxAnims)) 32 80
          (CRL_StatColor_Val s.gametic s.CRL_lineanims_counter s.CRL_MaxAnims) s
      else s
    else s
  -- Render counters
  let s :=
    if s.crl_widget_render ≠ 0 then
      -- Sprites (vanilla: 128, doom+: 1024)
      let s :=
        if s.crl_widget_render = 1
            ∨ (s.crl_widget_render = 2 ∧ s.CRLData.numsprites ≥ s.CRL_MaxVisSprites) then
          let s := MN_DrTextA "SPR:" 0 100
            (CRL_StatColor_Str s.gametic s.CRLData.numsprites s.CRL_MaxVisSprites) s
          MN_DrTextA (M_snprintf 16 (fmt_d_d s.CRLData.numsprites s.CRL_MaxVisSprites)) 32 100
            (CRL_StatColor_Val s.gametic s.CRLData.numsprites s.CRL_MaxVisSprites) s
        else s
      -- Segments (256 max)
      let s :=
        if s.crl_widget_render = 1
            ∨ (s.crl_widget_render = 2 ∧ s.CRLData.numsegs ≥ s.CRL_MaxDrawSegs) then
          let s := MN_DrTextA "SEG:" 0 110
            (CRL_StatColor_Str s.gametic s.CRLData.numsegs s.CRL_MaxDrawSegs) s
          MN_DrTextA (M_snprintf 16 (fmt_d_d s.CRLData.numsegs s.CRL_MaxDrawSegs)) 32 110
            (CRL_StatColor_Val s.gametic s.CRLData.numsegs s.CRL_MaxDrawSegs) s
        else s
      -- Planes (vanilla: 128, doom+: 1024)
      let s :=
        if s.crl_widget_render = 1
            ∨ (s.crl_widget_render = 2
                ∧ add32 s.CRLData.numcheckplanes s.CRLData.numfindplanes ≥ s.CRL_MaxVisPlanes) then
          let totalplanes := add32 s.CRLData.numcheckplanes s.CRLData.numfindplanes
          let s := MN_DrTextA "PLN:" 0 120
            (if totalplanes ≥ s.CRL_MaxVisPlanes then
              (if Int.land s.gametic 8 ≠ 0 then Color.CR_GRAY else Color.CR_LIGHTGRAY)
             else Color.CR_GRAY) s
          MN_DrTextA (M_snprintf 32 (fmt_d_d totalplanes s.CRL_MaxVisPlanes)) 32 120
            (if totalplanes ≥ s.CRL_MaxVisPlanes then
              (if Int.land s.gametic 8 ≠ 0 then Color.CR_RED else Color.CR_YELLOW)
             else Color.CR_GREEN) s
        else s
      -- Openings
      if s.crl_widget_render = 1
          ∨ (s.crl_widget_render = 2 ∧ s.CRLData.numopenings ≥ s.CRL_MaxOpenings) then
        let s := MN_DrTextA "OPN:" 0 130
          (CRL_StatColor_Str s.gametic s.CRLData.numopenings s.CRL_MaxOpenings) s
        MN_DrTextA (M_snprintf 16 (fmt_d_d s.CRLData.numopenings s.CRL_MaxOpenings)) 32 130
          (CRL_StatColor_Val s.gametic s.CRLData.numopenings s.CRL_MaxOpenings) s
      else s
    else s
  -- Level / DeathMatch timer
  let s := if s.crl_widget_time ≠ 0 then s else s
  -- K/I/S stats
  let s := if s.crl_widget_kis ≠ 0 then s else s
  -- Powerup timers.
  if s.crl_widget_powerups ≠ 0 then s else s

end CRL

namespace CRL

/-! ## Threshold classes -/

/-- The three classes of a counter value against its limit. -/
inductive StatClass where
  | atLimit
  | under
  | over
  deriving DecidableEq, Repr

/-- The class of `v` against `l`: `v == l`, `v < l` or `v > l`. -/
def statClass (v l : Int) : StatClass :=
  if v = l then StatClass.atLimit else if v < l then StatClass.under else StatClass.over

/-! ## The six limit widgets -/

/-- The widgets that compare a counter with a limit. -/
inductive Widget where
  | PLT
  | ANI
  | SPR
  | SEG
  | PLN
  | OPN
  deriving DecidableEq, Repr

/-- The screen row (the `y` argument of both `MN_DrTextA` calls) of a widget. -/
def Widget.row : Widget → Int
  | Widget.PLT => 70
  | Widget.ANI => 80
  | Widget.SPR => 100
  | Widget.SEG => 110
  | Widget.PLN => 120
  | Widget.OPN => 130

/-- The mode variable that gates a widget. -/
def Widget.mode (s : State) : Widget → Int
  | Widget.PLT => s.crl_widget_playstate
  | Widget.ANI => s.crl_widget_playstate
  | _ => s.crl_widget_render

/-- The counter value a widget shows. -/
def Widget.value (s : State) : Widget → Int
  | Widget.PLT => s.CRL_plats_counter
  | Widget.ANI => s.CRL_lineanims_counter
  | Widget.SPR => s.CRLData.numsprites
  | Widget.SEG => s.CRLData.numsegs
  | Widget.PLN => add32 s.CRLData.numcheckplanes s.CRLData.numfindplanes
  | Widget.OPN => s.CRLData.numopenings

/-- The limit a widget compares its counter with. -/
def Widget.limit (s : State) : Widget → Int
  | Widget.PLT => s.CRL_MaxPlats
  | Widget.ANI => s.CRL_MaxAnims
  | Widget.SPR => s.CRL_MaxVisSprites
  | Widget.SEG => s.CRL_MaxDrawSegs
  | Widget.PLN => s.CRL_MaxVisPlanes
  | Widget.OPN => s.CRL_MaxOpenings

/-! ## Commands emitted by one call -/

/-- The draw commands one call of `CRL_StatDrawer` adds to the screen. -/
def emitted (s : State) : List DrawCmd :=
  (CRL_StatDrawer s).screen.drop s.screen.length

/-- The commands of one call that lie on the row of widget `w`. -/
def emittedFor (w : Widget) (s : State) : List DrawCmd :=
  (emitted s).filter (fun c => decide (c.y = w.row))

/-- The state `s` without its screen contents: everything the drawer reads. -/
def inputs (s : State) : State := { s with screen := [] }

/-- Replace the mode of the render group. -/
def withRender (s : State) (m : Int) : State := { s with crl_widget_render := m }

/-- Replace the mode of the play-state group. -/
def withPlaystate (s : State) (m : Int) : State := { s with crl_widget_playstate := m }

/-- Replace the two plane counters. -/
def withPlanes (s : State) (check find : Int) : State :=
  { s with CRLData := { s.CRLData with numcheckplanes := check, numfindplanes := find } }

/-- An example frame: vanilla limits, all widget groups in the given modes. -/
def sampleState (g playstate render sprites planes : Int) : State :=
  { gametic := g, crl_widget_coords := 0, crl_widget_playstate := playstate,
    crl_widget_render := render, crl_widget_time := 0, crl_widget_kis := 0,
    crl_widget_powerups := 0, CRLWidgets := ⟨0, 0, 0⟩,
    CRLData := ⟨sprites, 10, planes, 0, 100⟩,
    CRL_plats_counter := 3, CRL_lineanims_counter := 5, CRL_MaxPlats := 30, CRL_MaxAnims := 64,
    CRL_MaxVisSprites := 128, CRL_MaxDrawSegs := 256, CRL_MaxVisPlanes := 128,
    CRL_MaxOpenings := 20480, screen := [] }

/-! ## The drawer as a list of commands -/

/-- Append commands to the screen. -/
def emit (s : State) (cmds : List DrawCmd) : State := { s with screen := s.screen ++ cmds }

/-- The commands of the coordinates block. -/
def coordsCmds (s : State) : List DrawCmd :=
  if s.crl_widget_coords ≠ 0 then
    [⟨"X:", 0, 30, Color.CR_GRAY⟩, ⟨"Y:", 0, 40, Color.CR_GRAY⟩, ⟨"ANG:", 0, 50, Color.CR_GRAY⟩,
     ⟨M_snprintf 16 (fmt_d s.CRLWidgets.x), 16, 30, Color.CR_GREEN⟩,
     ⟨M_snprintf 16 (fmt_d s.CRLWidgets.y), 16, 40, Color.CR_GREEN⟩,
     ⟨M_snprintf 16 (fmt_d s.CRLWidgets.ang), 32, 50, Color.CR_GREEN⟩]
  else []

/-- The two commands of a widget coloured by `CRL_StatColor_Str` / `CRL_StatColor_Val`. -/
def statCmds (label : String) (row : Int) (g v l : Int) : List DrawCmd :=
  [⟨label, 0, row, CRL_StatColor_Str g v l⟩,
   ⟨M_snprintf 16 (fmt_d_d v l), 32, row, CRL_StatColor_Val g v l⟩]

/-- The two commands of the plane widget, whose colours are computed in place. -/
def plnPair (g total l : Int) : List DrawCmd :=
  [⟨"PLN:", 0, 120,
      if total ≥ l then (if Int.land g 8 ≠ 0 then Color.CR_GRAY else Color.CR_LIGHTGRAY)
      else Color.CR_GRAY⟩,
   ⟨M_snprintf 32 (fmt_d_d total l), 32, 120,
      if total ≥ l then (if Int.land g 8 ≠ 0 then Color.CR_RED else Color.CR_YELLOW)
      else Color.CR_GREEN⟩]

/-- The commands of each limit widget, gate included. -/
def widgetCmds (s : State) : Widget → List DrawCmd
  | Widget.PLT =>
    if s.crl_widget_playstate = 1
        ∨ (s.crl_widget_playstate = 2 ∧ s.CRL_plats_counter > s.CRL_MaxPlats)
      then statCmds "PLT:" 70 s.gametic s.CRL_plats_counter s.CRL_MaxPlats else []
  | Widget.ANI =>
    if s.crl_widget_playstate = 1
        ∨ (s.crl_widget_playstate = 2 ∧ s.CRL_lineanims_counter > s.CRL_MaxAnims)
      then statCmds "ANI:" 80 s.gametic s.CRL_lineanims_counter s.CRL_MaxAnims else []
  | Widget.SPR =>
    if s.crl_widget_render = 1
        ∨ (s.crl_widget_render = 2 ∧ s.CRLData.numsprites ≥ s.CRL_MaxVisSprites)
      then statCmds "SPR:" 100 s.gametic s.CRLData.numsprites s.CRL_MaxVisSprites else []
  | Widget.SEG =>
    if s.crl_widget_render = 1
        ∨ (s.crl_widget_render = 2 ∧ s.CRLData.numsegs ≥ s.CRL_MaxDrawSegs)
      then statCmds "SEG:" 110 s.gametic s.CRLData.numsegs s.CRL_MaxDrawSegs else []
  | Widget.PLN =>
    if s.crl_widget_render = 1
        ∨ (s.crl_widget_render = 2
            ∧ add32 s.CRLData.numcheckplanes s.CRLData.numfindplanes ≥ s.CRL_MaxVisPlanes)
      then plnPair s.gametic (add32 s.CRLData.numcheckplanes s.CRLData.numfindplanes)
        s.CRL_MaxVisPlanes else []
  | Widget.OPN =>
    if s.crl_widget_render = 1
        ∨ (s.crl_widget_render = 2 ∧ s.CRLData.numopenings ≥ s.CRL_MaxOpenings)
      then statCmds "OPN:" 130 s.gametic s.CRLData.numopenings s.CRL_MaxOpenings else []

/-- All commands of one call, block after block. -/
def allCmds (s : State) : List DrawCmd :=
  coordsCmds s ++ (widgetCmds s Widget.PLT ++ (widgetCmds s Widget.ANI
    ++ (widgetCmds s Widget.SPR ++ (widgetCmds s Widget.SEG
    ++ (widgetCmds s Widget.PLN ++ widgetCmds s Widget.OPN)))))

/-! ## The blocks of the drawer as state transformers -/

/-- The `crl_widget_coords` block. -/
def coordsBlock (s : State) : State :=
  if s.crl_widget_coords ≠ 0 then
    let s := MN_DrTextA "X:" 0 30 Color.CR_GRAY s
    let s := MN_DrTextA "Y:" 0 40 Color.CR_GRAY s
    let s := MN_DrTextA "ANG:" 0 50 Color.CR_GRAY s
    let s := MN_DrTextA (M_snprintf 16 (fmt_d s.CRLWidgets.x)) 16 30 Color.CR_GREEN s
    let s := MN_DrTextA (M_snprintf 16 (fmt_d s.CRLWidgets.y)) 16 40 Color.CR_GREEN s
    MN_DrTextA (M_snprintf 16 (fmt_d s.CRLWidgets.ang)) 32 50 Color.CR_GREEN s
  else s

/-- The platforms widget inside the play-state block. -/
def pltBlock (s : State) : State :=
  if s.crl_widget_playstate = 1
      ∨ (s.crl_widget_playstate = 2 ∧ s.CRL_plats_counter > s.CRL_MaxPlats) then
    let s := MN_DrTextA "PLT:" 0 70
      (CRL_StatColor_Str s.gametic s.CRL_plats_counter s.CRL_MaxPlats) s
    MN_DrTextA (M_snprintf 16 (fmt_d_d s.CRL_plats_counter s.CRL_MaxPlats)) 32 70
      (CRL_StatColor_Val s.gametic s.CRL_plats_counter s.CRL_MaxPlats) s
  else s

/-- The animated-lines widget inside the play-state block. -/
def aniBlock (s : State) : State :=
  if s.crl_widget_playstate = 1
      ∨ (s.crl_widget_playstate = 2 ∧ s.CRL_lineanims_counter > s.CRL_MaxAnims) then
    let s := MN_DrTextA "ANI:" 0 80
      (CRL_StatColor_Str s.gametic s.CRL_lineanims_counter s.CRL_MaxAnims) s
    MN_DrTextA (M_snprintf 16 (fmt_d_d s.CRL_lineanims_counter s.CRL_MaxAnims)) 32 80
      (CRL_StatColor_Val s.gametic s.CRL_lineanims_counter s.CRL_MaxAnims) s
  else s

/-- The sprites widget inside the render block. -/
def sprBlock (s : State) : State :=
  if s.crl_widget_render = 1
      ∨ (s.crl_widget_render = 2 ∧ s.CRLData.numsprites ≥ s.CRL_MaxVisSprites) then
    let s := MN_DrTextA "SPR:" 0 100
      (CRL_StatColor_Str s.gametic s.CRLData.numsprites s.CRL_MaxVisSprites) s
    MN_DrTextA (M_snprintf 16 (fmt_d_d s.CRLData.numsprites s.CRL_MaxVisSprites)) 32 100
      (CRL_StatColor_Val s.gametic s.CRLData.numsprites s.CRL_MaxVisSprites) s
  else s

/-- The segments widget inside the render block. -/
def segBlock (s : State) : State :=
  if s.crl_widget_render = 1
      ∨ (s.crl_widget_render = 2 ∧ s.CRLData.numsegs ≥ s.CRL_MaxDrawSegs) then
    let s := MN_DrTextA "SEG:" 0 110
      (CRL_StatColor_Str s.gametic s.CRLData.numsegs s.CRL_MaxDrawSegs) s
    MN_DrTextA (M_snprintf 16 (fmt_d_d s.CRLData.numsegs s.CRL_MaxDrawSegs)) 32 110
      (CRL_StatColor_Val s.gametic s.CRLData.numsegs s.CRL_MaxDrawSegs) s
  else s

/-- The planes widget inside the render block. -/
def plnBlock (s : State) : State :=
  if s.crl_widget_render = 1
      ∨ (s.crl_widget_render = 2
          ∧ add32 s.CRLData.numcheckplanes s.CRLData.numfindplanes ≥ s.CRL_MaxVisPlanes) then
    let totalplanes := add32 s.CRLData.numcheckplanes s.CRLData.numfindplanes
    let s := MN_DrTextA "PLN:" 0 120
      (if totalplanes ≥ s.CRL_MaxVisPlanes then
        (if Int.land s.gametic 8 ≠ 0 then Color.CR_GRAY else Color.CR_LIGHTGRAY)
       else Color.CR_GRAY) s
    MN_DrTextA (M_snprintf 32 (fmt_d_d totalplanes s.CRL_MaxVisPlanes)) 32 120
      (if totalplanes ≥ s.CRL_MaxVisPlanes then
        (if Int.land s.gametic 8 ≠ 0 then Color.CR_RED else Color.CR_YELLOW)
       else Color.CR_GREEN) s
  else s

/-- The openings widget inside the render block. -/
def opnBlock (s : State) : State :=
  if s.crl_widget_render = 1
      ∨ (s.crl_widget_render = 2 ∧ s.CRLData.numopenings ≥ s.CRL_MaxOpenings) then
    let s := MN_DrTextA "OPN:" 0 130
      (CRL_StatColor_Str s.gametic s.CRLData.numopenings s.CRL_MaxOpenings) s
    MN_DrTextA (M_snprintf 16 (fmt_d_d s.CRLData.numopenings s.CRL_MaxOpenings)) 32 130
      (CRL_StatColor_Val s.gametic s.CRLData.numopenings s.CRL_MaxOpenings) s
  else s

/-- The `crl_widget_playstate` block. -/
def playstateBlock (s : State) : State :=
  if s.crl_widget_playstate ≠ 0 then aniBlock (pltBlock s) else s

/-- The `crl_widget_render` block. -/
def renderBlock (s : State) : State :=
  if s.crl_widget_render ≠ 0 then opnBlock (plnBlock (segBlock (sprBlock s))) else s

end CRL

namespace CRL

/-! ## Screen positions -/

/-- The screen position `(x, y)` of a draw command. -/
def DrawCmd.pos (c : DrawCmd) : Int × Int := (c.x, c.y)

/-- The positions written in `CRL_StatDrawer`, in source order. -/
def fixedPositions : List (Int × Int) :=
  [(0, 30), (0, 40), (0, 50), (16, 30), (16, 40), (32, 50),
   (0, 70), (32, 70), (0, 80), (32, 80),
   (0, 100), (32, 100), (0, 110), (32, 110), (0, 120), (32, 120), (0, 130), (32, 130)]

/-! ## `d_main.c`: data model -/

/-- The game states `D_Display` dispatches on (`gamestate_t`). -/
inductive gamestate_t where
  | GS_LEVEL
  | GS_INTERMISSION
  | GS_FINALE
  | GS_DEMOSCREEN
  deriving DecidableEq, Repr

/-- The game modes (`GameMode_t`). -/
inductive GameMode_t where
  | shareware
  | registered
  | commercial
  | retail
  | indetermined
  deriving DecidableEq, Repr

/-- The player states (`playerstate_t`). -/
inductive playerstate_t where
  | PST_LIVE
  | PST_DEAD
  | PST_REBORN
  deriving DecidableEq, Repr

/-- The pending game actions (`gameaction_t`); only `ga_nothing` is named in `d_main.c`. -/
inductive gameaction_t where
  | ga_nothing
  | ga_other (code : Nat)
  deriving DecidableEq, Repr

/-- The flags or-ed into `UpdateState`. -/
inductive UpdateFlag where
  | I_FULLVIEW
  | I_FULLSCRN
  deriving DecidableEq, Repr

/-- What the functions of `d_main.c` do besides assigning the variables of `Game`: the
calls they make, with their arguments, and the two assignments `CRLSurface = I_VideoBuffer`
and `UpdateState |= flag`.  The bodies of the callees are not expanded, whether they are
part of the sources (`CRL_StatDrawer`, `CRL_DrawFPS`, `DrawMessage`,
`CRL_DrawCriticalMessage`, `D_PageDrawer`) or not. -/
inductive Act where
  | R_ExecuteSetViewSize
  | CRLSurface_assign
  | R_RenderPlayerView
  | AM_Drawer
  | CRL_DrawVisPlanes (overlay : Int)
  | CRL_StatDrawer
  | CRL_DemoTimer (time : Int)
  | CRL_DrawTargetsHealth
  | CT_Drawer
  | UpdateState_or (flag : UpdateFlag)
  | SB_Drawer
  | CRL_DemoBar
  | CRL_DrawFPS
  | IN_Drawer
  | F_Drawer
  | D_PageDrawer
  | V_DrawMouseSpeedBox (speed : Int)
  | V_DrawPatch (x y : Int) (name : String)
  | DrawMessage
  | MN_Drawer
  | CRL_DrawCriticalMessage
  | NetUpdate
  | I_FinishUpdate
  | S_StartSong (song : String) (looping : Bool)
  | G_DeferedPlayDemo (name : String)
  deriving DecidableEq, Repr

/-- The globals read and written by `D_Display` and by the demo loop of `d_main.c`.
`stat` holds the globals shared with `crlfunc.c`, of which `d_main.c` reads `gametic`;
`playerstate` is `players[consoleplayer].playerstate`; `acts` is the record of calls,
oldest first. -/
structure Game where
  stat : State
  nodrawers : Bool
  setsizeneeded : Bool
  automapactive : Bool
  demoplayback : Bool
  demorecording : Bool
  paused : Bool
  MenuActive : Bool
  askforquit : Bool
  netgame : Bool
  testcontrols : Bool
  gamestate : gamestate_t
  crl_demo_timer : Int
  crl_demo_timerdir : Int
  crl_demo_bar : Int
  crl_widget_health : Int
  crl_showfps : Int
  deftotaldemotics : Int
  defdemotics : Int
  leveltime : Int
  viewwindowy : Int
  testcontrols_mousespeed : Int
  demosequence : Int
  pagetic : Int
  pagename : Option String
  advancedemo : Bool
  usergame : Bool
  gameaction : gameaction_t
  playerstate : playerstate_t
  BorderNeedRefresh : Bool
  gamemode : GameMode_t
  crl_internal_demos : Int
  acts : List Act

/-- The C expression `a - b` on two `int`s. -/
def sub32 (a b : Int) : Int := wrap32 (a - b)

/-- Record one action. -/
def act (a : Act) (g : Game) : Game := { g with acts := g.acts ++ [a] }

/-! ## `D_Display` -/

/-- The frame orchestrator: `d_main.c`, lines 180-301.  Every call it makes is recorded in
`acts`, in order; the text that `CRL_StatDrawer`, `CRL_DrawFPS`, `DrawMessage` and the menu
send to `MN_DrTextA` while they run belongs to the callees and is not part of this
function. -/
def D_Display (g : Game) : Game :=
  -- For comparative timing / profiling
  if g.nodrawers then g
  else
    -- Change the view size if needed
    let g := if g.setsizeneeded then act Act.R_ExecuteSetViewSize g else g
    let g := act Act.CRLSurface_assign g
    -- do buffered drawing
    let g :=
      match g.gamestate with
      | gamestate_t.GS_LEVEL =>
        if g.stat.gametic = 0 then g
        else
          let g := act Act.R_RenderPlayerView g
          let g :=
            if g.automapactive then act Act.AM_Drawer g
            else act (Act.CRL_DrawVisPlanes 1) g
          -- CRL Stats
          let g := act Act.CRL_StatDrawer g
          -- demo timer widget
          let g :=
            if g.demoplayback ∧ (g.crl_demo_timer = 1 ∨ g.crl_demo_timer = 3) then
              act (Act.CRL_DemoTimer
                (if g.crl_demo_timerdir ≠ 0 then sub32 g.deftotaldemotics g.defdemotics
                 else g.defdemotics)) g
            else if g.demorecording ∧ (g.crl_demo_timer = 2 ∨ g.crl_demo_timer = 3) then
              act (Act.CRL_DemoTimer g.leveltime) g
            else g
          -- Target's health widget.
          let g := if g.crl_widget_health ≠ 0 then act Act.CRL_DrawTargetsHealth g else g
          let g := act Act.CT_Drawer g
          let g := act (Act.UpdateState_or UpdateFlag.I_FULLVIEW) g
          let g := act Act.SB_Drawer g
          -- demo progress bar
          let g := if g.demoplayback ∧ g.crl_demo_bar ≠ 0 then act Act.CRL_DemoBar g else g
          -- Draw FPS counter.
          if g.crl_showfps ≠ 0 then act Act.CRL_DrawFPS g else g
      | gamestate_t.GS_INTERMISSION => act Act.IN_Drawer g
      | gamestate_t.GS_FINALE => act Act.F_Drawer g
      | gamestate_t.GS_DEMOSCREEN => act Act.D_PageDrawer g
    let g :=
      if g.testcontrols then act (Act.V_DrawMouseSpeedBox g.testcontrols_mousespeed) g else g
    let g :=
      if g.paused ∧ ¬ g.MenuActive ∧ ¬ g.askforquit then
        if ¬ g.netgame then act (Act.V_DrawPatch 160 (add32 g.viewwindowy 5) "PAUSED") g
        else act (Act.V_DrawPatch 160 70 "PAUSED") g
      else g
    -- Handle player messages
    let g := act Act.DrawMessage g
    -- Menu drawing
    let g := act Act.MN_Drawer g
    -- Critical messages are drawn even higher than on top everything!
    let g := act Act.CRL_DrawCriticalMessage g
    -- Send out any new accumulation
    let g := act Act.NetUpdate g
    -- Flush buffered stuff to screen
    act Act.I_FinishUpdate g

/-- The actions of one `D_Display` call. -/
def calls (g : Game) : List Act := (D_Display g).acts.drop g.acts.length

/-- An example engine state: a level in progress at tic 8, nothing optional enabled. -/
def sampleGame : Game :=
  { stat := sampleState 8 1 1 100 50,
    nodrawers := false, setsizeneeded := false, automapactive := false,
    demoplayback := false, demorecording := false, paused := false, MenuActive := false,
    askforquit := false, netgame := false, testcontrols := false,
    gamestate := gamestate_t.GS_LEVEL,
    crl_demo_timer := 0, crl_demo_timerdir := 0, crl_demo_bar := 0, crl_widget_health := 0,
    crl_showfps := 0, deftotaldemotics := 0, defdemotics := 0, leveltime := 0,
    viewwindowy := 0, testcontrols_mousespeed := 0,
    demosequence := 0, pagetic := 0, pagename := none, advancedemo := false,
    usergame := true, gameaction := gameaction_t.ga_nothing,
    playerstate := playerstate_t.PST_LIVE, BorderNeedRefresh := false,
    gamemode := GameMode_t.registered, crl_internal_demos := 1, acts := [] }

end CRL

namespace CRL

/-! ## `D_Display` as a list of actions -/

/-- Replace the stat state and append actions. -/
def upd (g : Game) (st : State) (l : List Act) : Game :=
  { g with stat := st, acts := g.acts ++ l }

/-- The view-size step. -/
def sizeActs (g : Game) : List Act :=
  if g.setsizeneeded then [Act.R_ExecuteSetViewSize] else []

/-- The automap or the visplane overlay. -/
def overlayAct (g : Game) : Act :=
  if g.automapactive then Act.AM_Drawer else Act.CRL_DrawVisPlanes 1

/-- The demo timer widget. -/
def timerActs (g : Game) : List Act :=
  if g.demoplayback ∧ (g.crl_demo_timer = 1 ∨ g.crl_demo_timer = 3) then
    [Act.CRL_DemoTimer
      (if g.crl_demo_timerdir ≠ 0 then sub32 g.deftotaldemotics g.defdemotics
       else g.defdemotics)]
  else if g.demorecording ∧ (g.crl_demo_timer = 2 ∨ g.crl_demo_timer = 3) then
    [Act.CRL_DemoTimer g.leveltime]
  else []

/-- The target's health widget. -/
def healthActs (g : Game) : List Act :=
  if g.crl_widget_health ≠ 0 then [Act.CRL_DrawTargetsHealth] else []

/-- The demo progress bar. -/
def barActs (g : Game) : List Act :=
  if g.demoplayback ∧ g.crl_demo_bar ≠ 0 then [Act.CRL_DemoBar] else []

/-- The FPS counter. -/
def fpsActs (g : Game) : List Act :=
  if g.crl_showfps ≠ 0 then [Act.CRL_DrawFPS] else []

/-- The actions of the `GS_LEVEL` case when `gametic` is not zero. -/
def levelActs (g : Game) : List Act :=
  [Act.R_RenderPlayerView, overlayAct g, Act.CRL_StatDrawer] ++ (timerActs g ++ (healthActs g
    ++ ([Act.CT_Drawer, Act.UpdateState_or UpdateFlag.I_FULLVIEW, Act.SB_Drawer]
    ++ (barActs g ++ fpsActs g))))

/-- The actions of the `switch (gamestate)`. -/
def stateActs (g : Game) : List Act :=
  match g.gamestate with
  | gamestate_t.GS_LEVEL => if g.stat.gametic = 0 then [] else levelActs g
  | gamestate_t.GS_INTERMISSION => [Act.IN_Drawer]
  | gamestate_t.GS_FINALE => [Act.F_Drawer]
  | gamestate_t.GS_DEMOSCREEN => [Act.D_PageDrawer]

/-- The mouse speed box of the control test. -/
def mouseActs (g : Game) : List Act :=
  if g.testcontrols then [Act.V_DrawMouseSpeedBox g.testcontrols_mousespeed] else []

/-- The pause indicator. -/
def pauseActs (g : Game) : List Act :=
  if g.paused ∧ ¬ g.MenuActive ∧ ¬ g.askforquit then
    (if ¬ g.netgame then [Act.V_DrawPatch 160 (add32 g.viewwindowy 5) "PAUSED"]
     else [Act.V_DrawPatch 160 70 "PAUSED"])
  else []

/-- The five steps that end every drawn frame. -/
def tailActs : List Act :=
  [Act.DrawMessage, Act.MN_Drawer, Act.CRL_DrawCriticalMessage, Act.NetUpdate,
   Act.I_FinishUpdate]

/-- The actions of one `D_Display` call, step after step. -/
def displayActs (g : Game) : List Act :=
  if g.nodrawers then []
  else sizeActs g ++ ([Act.CRLSurface_assign] ++ (stateActs g ++ (mouseActs g
    ++ (pauseActs g ++ tailActs))))

/-- The `GS_LEVEL` case of `D_Display` after the `gametic` test. -/
def levelBlock (g : Game) : Game :=
  let g := act Act.R_RenderPlayerView g
  let g :=
    if g.automapactive then act Act.AM_Drawer g
    else act (Act.CRL_DrawVisPlanes 1) g
  let g := act Act.CRL_StatDrawer g
  let g :=
    if g.demoplayback ∧ (g.crl_demo_timer = 1 ∨ g.crl_demo_timer = 3) then
      act (Act.CRL_DemoTimer
        (if g.crl_demo_timerdir ≠ 0 then sub32 g.deftotaldemotics g.defdemotics
         else g.defdemotics)) g
    else if g.demorecording ∧ (g.crl_demo_timer = 2 ∨ g.crl_demo_timer = 3) then
      act (Act.CRL_DemoTimer g.leveltime) g
    else g
  let g := if g.crl_widget_health ≠ 0 then act Act.CRL_DrawTargetsHealth g else g
  let g := act Act.CT_Drawer g
  let g := act (Act.UpdateState_or UpdateFlag.I_FULLVIEW) g
  let g := act Act.SB_Drawer g
  let g := if g.demoplayback ∧ g.crl_demo_bar ≠ 0 then act Act.CRL_DemoBar g else g
  if g.crl_showfps ≠ 0 then act Act.CRL_DrawFPS g else g

/-- The `switch (gamestate)` of `D_Display`. -/
def stateBlock (g : Game) : Game :=
  match g.gamestate with
  | gamestate_t.GS_LEVEL => if g.stat.gametic = 0 then g else levelBlock g
  | gamestate_t.GS_INTERMISSION => act Act.IN_Drawer g
  | gamestate_t.GS_FINALE => act Act.F_Drawer g
  | gamestate_t.GS_DEMOSCREEN => act Act.D_PageDrawer g

/-- The steps of `D_Display` after the `switch`. -/
def tailBlock (g : Game) : Game :=
  let g :=
    if g.testcontrols then act (Act.V_DrawMouseSpeedBox g.testcontrols_mousespeed) g else g
  let g :=
    if g.paused ∧ ¬ g.MenuActive ∧ ¬ g.askforquit then
      if ¬ g.netgame then act (Act.V_DrawPatch 160 (add32 g.viewwindowy 5) "PAUSED") g
      else act (Act.V_DrawPatch 160 70 "PAUSED") g
    else g
  let g := act Act.DrawMessage g
  let g := act Act.MN_Drawer g
  let g := act Act.CRL_DrawCriticalMessage g
  let g := act Act.NetUpdate g
  act Act.I_FinishUpdate g

end CRL

namespace CRL

/-! ## The demo loop of `d_main.c` -/

/-- Called after each demo or intro demosequence finishes: `d_main.c`, lines 421-424. -/
def D_AdvanceDemo (g : Game) : Game := { g with advancedemo := true }

/-- The page countdown: `d_main.c`, lines 387-391. -/
def D_PageTicker (g : Game) : Game :=
  let g := { g with pagetic := sub32 g.pagetic 1 }
  if g.pagetic < 0 then D_AdvanceDemo g else g

/-- The step of the demo sequence: `d_main.c`, lines 426-489.  The assignments of one
straight-line run are written as one update, in source order; `% 7` is the C remainder,
which truncates towards zero. -/
def D_DoAdvanceDemo (g : Game) : Game :=
  let g :=
    { g with
      playerstate := playerstate_t.PST_LIVE
      advancedemo := false
      usergame := false
      paused := false
      gameaction := gameaction_t.ga_nothing
      demosequence := Int.tmod (add32 g.demosequence 1) 7 }
  if g.demosequence = 0 then
    act (Act.S_StartSong "mus_titl" false)
      { g with pagetic := 210, gamestate := gamestate_t.GS_DEMOSCREEN, pagename := some "TITLE" }
  else if g.demosequence = 1 then
    { g with pagetic := 140, gamestate := gamestate_t.GS_DEMOSCREEN, pagename := some "TITLE" }
  else if g.demosequence = 2 then
    let g := act (Act.UpdateState_or UpdateFlag.I_FULLSCRN) { g with BorderNeedRefresh := true }
    if g.crl_internal_demos ≠ 0 then act (Act.G_DeferedPlayDemo "demo1") g else g
  else if g.demosequence = 3 then
    { g with pagetic := 200, gamestate := gamestate_t.GS_DEMOSCREEN, pagename := some "CREDIT" }
  else if g.demosequence = 4 then
    let g := act (Act.UpdateState_or UpdateFlag.I_FULLSCRN) { g with BorderNeedRefresh := true }
    if g.crl_internal_demos ≠ 0 then act (Act.G_DeferedPlayDemo "demo2") g else g
  else if g.demosequence = 5 then
    { g with
      pagetic := 200
      gamestate := gamestate_t.GS_DEMOSCREEN
      pagename := some (if g.gamemode = GameMode_t.shareware then "ORDER" else "CREDIT") }
  else if g.demosequence = 6 then
    let g := act (Act.UpdateState_or UpdateFlag.I_FULLSCRN) { g with BorderNeedRefresh := true }
    if g.crl_internal_demos ≠ 0 then act (Act.G_DeferedPlayDemo "demo3") g else g
  else g

/-- The start of the title loop: `d_main.c`, lines 500-505. -/
def D_StartTitle (g : Game) : Game :=
  D_AdvanceDemo { g with gameaction := gameaction_t.ga_nothing, demosequence := -1 }

/-- The value `demosequence = (demosequence + 1) % 7` assigns. -/
def nextSequence (k : Int) : Int := Int.tmod (add32 k 1) 7

/-- The values of `demosequence` after each of `n` consecutive `D_DoAdvanceDemo` calls. -/
def visitedStates (n : Nat) (g : Game) : List Int :=
  (List.range n).map (fun i => (D_DoAdvanceDemo^[i + 1] g).demosequence)

/-- The engine state `sampleGame` inside the demo loop, at the given sequence index. -/
def demoGame (k : Int) : Game := { sampleGame with demosequence := k }

end CRL

namespace CRL

/-- A level frame during demo playback with timer, progress bar, health widget and
FPS counter enabled. -/
def playbackGame : Game :=
  { sampleGame with
    demoplayback := true, crl_demo_timer := 1, crl_demo_bar := 1, crl_widget_health := 1,
    crl_showfps := 1 }

/-- The engine state `sampleGame` with `nodrawers` set. -/
def nodrawersGame : Game := { sampleGame with nodrawers := true }

/-- The engine state `sampleGame` with a pending view-size change. -/
def resizeGame : Game := { sampleGame with setsizeneeded := true }

end CRL

namespace CRL

/-! ## Sample states of the demo loop -/

/-- The engine state `sampleGame` on a demo page with `n` tics left and no advance pending. -/
def pageGame (n : Int) : Game :=
  { sampleGame with gamestate := gamestate_t.GS_DEMOSCREEN, pagetic := n, advancedemo := false }

/-- The state `pageGame (-1)` at sequence index `k` with internal demos disabled. -/
def noDemosGame (k : Int) : Game :=
  { pageGame (-1) with demosequence := k, crl_internal_demos := 0, advancedemo := true }

/-- Replace the mode of the kills/items/secrets widget. -/
def withKis (s : State) (m : Int) : State := { s with crl_widget_kis := m }

/-- Replace the mode of the coordinates widget. -/
def withCoords (s : State) (m : Int) : State := { s with crl_widget_coords := m }

/-- The demos requested by a list of actions. -/
def demoRequests (l : List Act) : List String :=
  l.filterMap (fun a => match a with
    | Act.G_DeferedPlayDemo name => some name
    | _ => none)

/-- The states of the demo loop the functions of `d_main.c` can produce: `demosequence`
starts at 0 (a zero-initialised `static int`) and is written only by `D_StartTitle` and
`D_DoAdvanceDemo`. -/
inductive DemoReachable : Game → Prop where
  | init (g : Game) (h : g.demosequence = 0) : DemoReachable g
  | startTitle (g : Game) : DemoReachable g → DemoReachable (D_StartTitle g)
  | doAdvance (g : Game) : DemoReachable g → DemoReachable (D_DoAdvanceDemo g)
  | advance (g : Game) : DemoReachable g → DemoReachable (D_AdvanceDemo g)
  | pageTicker (g : Game) : DemoReachable g → DemoReachable (D_PageTicker g)
  | display (g : Game) : DemoReachable g → DemoReachable (D_Display g)

end CRL

namespace CRL

/-! ## `D_ProcessEvents` -/

/-- The responders of the chain. -/
inductive Responder where
  | F_Responder
  | MN_Responder
  | G_Responder
  deriving DecidableEq, Repr

/-- One responder call: who was asked, about which event, and the answer. -/
structure Offer (ε : Type) where
  responder : Responder
  event : ε
  answer : Bool
  deriving DecidableEq, Repr

/-- Modelled from the spec: the bodies of `F_Responder`, `MN_Responder` and `G_Responder`
are not part of the sources; each reads the event, may change the state `σ` of the game
it belongs to, and answers whether it consumed the event.  The responders do not touch
the event queue. -/
structure Responders (ε σ : Type) where
  F_Responder : ε → σ → Bool × σ
  MN_Responder : ε → σ → Bool × σ
  G_Responder : ε → σ → Bool × σ

/-- The event queue, oldest event first, the state the responders work on, and the
record of the responder calls, oldest first. -/
structure EventState (ε σ : Type) where
  queue : List ε
  world : σ
  offers : List (Offer ε)

/-- Modelled from the spec: the body of `D_PopEvent` (d_event.c) is not part of the
sources; it takes the oldest event off the queue and returns `NULL` when the queue is
empty. -/
def D_PopEvent {ε σ : Type} (s : EventState ε σ) : Option ε × EventState ε σ :=
  match s.queue with
  | [] => (none, s)
  | ev :: rest => (some ev, { s with queue := rest })

/-- One call `r(ev)` of a responder, recorded with its answer. -/
def respond {ε σ : Type} (r : Responder) (f : ε → σ → Bool × σ) (ev : ε)
    (s : EventState ε σ) : Bool × EventState ε σ :=
  ((f ev s.world).1,
    { s with world := (f ev s.world).2, offers := s.offers ++ [⟨r, ev, (f ev s.world).1⟩] })

/-- Send all the events down the responder chain: `d_main.c`, lines 113-129. -/
def D_ProcessEvents {ε σ : Type} (c : Responders ε σ) (s : EventState ε σ) :
    EventState ε σ :=
  match h : D_PopEvent s with
  | (none, s) => s
  | (some ev, s1) =>
    if (respond Responder.F_Responder c.F_Responder ev s1).1 then
      D_ProcessEvents c (respond Responder.F_Responder c.F_Responder ev s1).2
    else if (respond Responder.MN_Responder c.MN_Responder ev
        (respond Responder.F_Responder c.F_Responder ev s1).2).1 then
      D_ProcessEvents c (respond Responder.MN_Responder c.MN_Responder ev
        (respond Responder.F_Responder c.F_Responder ev s1).2).2
    else
      D_ProcessEvents c (respond Responder.G_Responder c.G_Responder ev
        (respond Responder.MN_Responder c.MN_Responder ev
          (respond Responder.F_Responder c.F_Responder ev s1).2).2).2
termination_by s.queue.length
decreasing_by
  all_goals
    show s1.queue.length < s.queue.length
    unfold D_PopEvent at h
    split at h
    · simp at h
    · rename_i e rest hq
      simp only [Prod.mk.injEq, Option.some.injEq] at h
      rw [← h.2, hq]
      simp

end CRL

namespace CRL

/-- First-match-wins for one event, following the words of the spec: the event is offered
to `F_Responder`, then `MN_Responder`, then `G_Responder`, stopping at the first responder
that answers true (the answer of `G_Responder` is ignored). -/
def firstMatch {ε σ : Type} (c : Responders ε σ) (ev : ε) (w : σ) : List (Offer ε) × σ :=
  if (c.F_Responder ev w).1 then
    ([⟨Responder.F_Responder, ev, true⟩], (c.F_Responder ev w).2)
  else if (c.MN_Responder ev (c.F_Responder ev w).2).1 then
    ([⟨Responder.F_Responder, ev, false⟩, ⟨Responder.MN_Responder, ev, true⟩],
      (c.MN_Responder ev (c.F_Responder ev w).2).2)
  else
    ([⟨Responder.F_Responder, ev, false⟩, ⟨Responder.MN_Responder, ev, false⟩,
        ⟨Responder.G_Responder, ev,
          (c.G_Responder ev (c.MN_Responder ev (c.F_Responder ev w).2).2).1⟩],
      (c.G_Responder ev (c.MN_Responder ev (c.F_Responder ev w).2).2).2)

/-- Draining a queue in order, following the words of the spec: one block of responder
calls per event, oldest event first. -/
def drainBlocks {ε σ : Type} (c : Responders ε σ) : List ε → σ → List (List (Offer ε)) × σ
  | [], w => ([], w)
  | ev :: rest, w =>
    ((firstMatch c ev w).1 :: (drainBlocks c rest (firstMatch c ev w).2).1,
      (drainBlocks c rest (firstMatch c ev w).2).2)

/-- The three shapes the responder calls for one event can take. -/
def ValidBlock {ε : Type} (ev : ε) (b : List (Offer ε)) : Prop :=
  b = [⟨Responder.F_Responder, ev, true⟩]
    ∨ b = [⟨Responder.F_Responder, ev, false⟩, ⟨Responder.MN_Responder, ev, true⟩]
    ∨ ∃ r, b = [⟨Responder.F_Responder, ev, false⟩, ⟨Responder.MN_Responder, ev, false⟩,
        ⟨Responder.G_Responder, ev, r⟩]

/-- Three responders on numbered events: the finale takes the even events, the menu takes
the multiples of three, and each counts its calls in the state. -/
def sampleResponders : Responders Nat Nat :=
  { F_Responder := fun ev w => (ev % 2 == 0, w + 1),
    MN_Responder := fun ev w => (ev % 3 == 0, w + 10),
    G_Responder := fun _ w => (true, w + 100) }

end CRL

namespace CRL

/-! ## Bit 3 of the tic counter -/

theorem nat_testBit_eight (i : Nat) : Nat.testBit 8 i = decide (3 = i) := by
  have h : (8 : Nat) = 2 ^ 3 := by norm_num
  rw [h, Nat.testBit_two_pow]

theorem land_eight_eq_zero_of_testBit (g : Int) (h : g.testBit 3 = false) :
    Int.land g 8 = 0 := by
  cases g with
  | ofNat m =>
    have h3 : m.testBit 3 = false := h
    have hz : m &&& 8 = 0 := by
      apply Nat.eq_of_testBit_eq
      intro i
      rw [Nat.testBit_and, nat_testBit_eight, Nat.zero_testBit]
      by_cases hi : 3 = i
      · subst hi; simp [h3]
      · simp [hi]
    show ((m &&& 8 : Nat) : Int) = 0
    rw [hz]; rfl
  | negSucc m =>
    have h3 : m.testBit 3 = true := by
      have hn : (!m.testBit 3) = false := h
      simpa using hn
    have hz : Nat.ldiff 8 m = 0 := by
      apply Nat.eq_of_testBit_eq
      intro i
      rw [Nat.testBit_ldiff, nat_testBit_eight, Nat.zero_testBit]
      by_cases hi : 3 = i
      · subst hi; simp [h3]
      · simp [hi]
    show ((Nat.ldiff 8 m : Nat) : Int) = 0
    rw [hz]; rfl

/-- The test `gametic & 8` of the source reads exactly bit 3 of `gametic`. -/
theorem land_eight_ne_zero_iff (g : Int) : Int.land g 8 ≠ 0 ↔ g.testBit 3 = true := by
  constructor
  · intro h
    by_contra hb
    exact h (land_eight_eq_zero_of_testBit g (by simpa using hb))
  · intro h h0
    have h1 := Int.testBit_land g 8 3
    rw [h0, h] at h1
    revert h1
    decide

/-! ## The drawer equals its list of commands -/

@[simp] theorem emit_nil (s : State) : emit s [] = s := by
  simp [emit]

@[simp] theorem emit_emit (s : State) (a b : List DrawCmd) :
    emit (emit s a) b = emit s (a ++ b) := by
  simp [emit]

@[simp] theorem coordsCmds_emit (s : State) (l : List DrawCmd) :
    coordsCmds (emit s l) = coordsCmds s := rfl

@[simp] theorem widgetCmds_emit (s : State) (l : List DrawCmd) (w : Widget) :
    widgetCmds (emit s l) w = widgetCmds s w := by
  cases w <;> rfl

@[simp] theorem playstate_emit (s : State) (l : List DrawCmd) :
    (emit s l).crl_widget_playstate = s.crl_widget_playstate := rfl

@[simp] theorem render_emit (s : State) (l : List DrawCmd) :
    (emit s l).crl_widget_render = s.crl_widget_render := rfl

theorem coordsBlock_eq (s : State) : coordsBlock s = emit s (coordsCmds s) := by
  unfold coordsBlock coordsCmds
  split_ifs <;> simp [MN_DrTextA, emit]

theorem pltBlock_eq (s : State) : pltBlock s = emit s (widgetCmds s Widget.PLT) := by
  simp only [pltBlock, widgetCmds]
  split_ifs with h <;> simp [MN_DrTextA, emit, statCmds]

theorem aniBlock_eq (s : State) : aniBlock s = emit s (widgetCmds s Widget.ANI) := by
  simp only [aniBlock, widgetCmds]
  split_ifs with h <;> simp [MN_DrTextA, emit, statCmds]

theorem sprBlock_eq (s : State) : sprBlock s = emit s (widgetCmds s Widget.SPR) := by
  simp only [sprBlock, widgetCmds]
  split_ifs with h <;> simp [MN_DrTextA, emit, statCmds]

theorem segBlock_eq (s : State) : segBlock s = emit s (widgetCmds s Widget.SEG) := by
  simp only [segBlock, widgetCmds]
  split_ifs with h <;> simp [MN_DrTextA, emit, statCmds]

theorem plnBlock_eq (s : State) : plnBlock s = emit s (widgetCmds s Widget.PLN) := by
  simp only [plnBlock, widgetCmds]
  by_cases h : s.crl_widget_render = 1 ∨ (s.crl_widget_render = 2
      ∧ add32 s.CRLData.numcheckplanes s.CRLData.numfindplanes ≥ s.CRL_MaxVisPlanes)
  · rw [if_pos h, if_pos h]
    simp [MN_DrTextA, emit, plnPair]
  · rw [if_neg h, if_neg h]
    simp [emit]

theorem opnBlock_eq (s : State) : opnBlock s = emit s (widgetCmds s Widget.OPN) := by
  simp only [opnBlock, widgetCmds]
  split_ifs with h <;> simp [MN_DrTextA, emit, statCmds]

theorem playstateBlock_eq (s : State) :
    playstateBlock s = emit s (widgetCmds s Widget.PLT ++ widgetCmds s Widget.ANI) := by
  unfold playstateBlock
  split_ifs with h
  · simp [pltBlock_eq, aniBlock_eq]
  · have h0 : s.crl_widget_playstate = 0 := by simpa using h
    simp [widgetCmds, h0]

theorem renderBlock_eq (s : State) :
    renderBlock s = emit s (widgetCmds s Widget.SPR ++ (widgetCmds s Widget.SEG
      ++ (widgetCmds s Widget.PLN ++ widgetCmds s Widget.OPN))) := by
  unfold renderBlock
  split_ifs with h
  · simp [sprBlock_eq, segBlock_eq, plnBlock_eq, opnBlock_eq]
  · have h0 : s.crl_widget_render = 0 := by simpa using h
    simp [widgetCmds, h0]

theorem CRL_StatDrawer_blocks (s : State) :
    CRL_StatDrawer s = renderBlock (playstateBlock (coordsBlock s)) := by
  simp only [CRL_StatDrawer, ite_self]
  rfl

/-- One call appends `allCmds s` to the screen and changes nothing else. -/
theorem CRL_StatDrawer_eq (s : State) : CRL_StatDrawer s = emit s (allCmds s) := by
  rw [CRL_StatDrawer_blocks, coordsBlock_eq, playstateBlock_eq, renderBlock_eq]
  simp [allCmds]

theorem emitted_eq (s : State) : emitted s = allCmds s := by
  simp [emitted, CRL_StatDrawer_eq, emit]

theorem allCmds_inputs (s : State) : allCmds (inputs s) = allCmds s := rfl

/-! ## Rows -/

theorem coordsCmds_row (s : State) (w : Widget) :
    (coordsCmds s).filter (fun c => decide (c.y = w.row)) = [] := by
  unfold coordsCmds
  split_ifs <;> cases w <;> simp [Widget.row]

theorem widgetCmds_row (s : State) (v w : Widget) :
    (widgetCmds s v).filter (fun c => decide (c.y = w.row))
      = if v = w then widgetCmds s v else [] := by
  cases v <;> cases w <;> simp only [widgetCmds] <;> split_ifs <;>
    simp [Widget.row, statCmds, plnPair] at *

/-- The commands on the row of a widget are the commands of that widget. -/
theorem emittedFor_eq (w : Widget) (s : State) : emittedFor w s = widgetCmds s w := by
  unfold emittedFor
  rw [emitted_eq]
  simp only [allCmds, List.filter_append, coordsCmds_row, widgetCmds_row]
  cases w <;> simp

end CRL

namespace CRL

/-! ## Threshold colours -/

/-- C1: for every counter value `v`, limit `L` with `v == L` and every `gametic`,
`CRL_StatColor_Str` returns the neutral label colour `CR_LIGHTGRAY` and
`CRL_StatColor_Val` the neutral value colour `CR_YELLOW`; the tic does not matter. -/
theorem statColor_at_limit (g v L : Int) (h : v = L) :
    CRL_StatColor_Str g v L = Color.CR_LIGHTGRAY
      ∧ CRL_StatColor_Val g v L = Color.CR_YELLOW := by
  simp [CRL_StatColor_Str, CRL_StatColor_Val, h]

theorem statColor_at_limit_witness :
    (128 : Int) = 128
      ∧ (CRL_StatColor_Str 8 128 128 = Color.CR_LIGHTGRAY
        ∧ CRL_StatColor_Val 8 128 128 = Color.CR_YELLOW) :=
  ⟨rfl, statColor_at_limit 8 128 128 rfl⟩

/-- C2: for every `v > L` the over-budget colour flashes on bit 3 of `gametic`:
the label is `CR_GRAY` when `gametic & 8` is nonzero and `CR_LIGHTGRAY` otherwise, the
value is `CR_RED` when `gametic & 8` is nonzero and `CR_YELLOW` otherwise, and two tics
with the same bit 3 give the same colours. -/
theorem statColor_over_limit (g v L : Int) (h : v > L) :
    CRL_StatColor_Str g v L
        = (if Int.land g 8 ≠ 0 then Color.CR_GRAY else Color.CR_LIGHTGRAY)
      ∧ CRL_StatColor_Val g v L
        = (if Int.land g 8 ≠ 0 then Color.CR_RED else Color.CR_YELLOW)
      ∧ ∀ g' : Int, g'.testBit 3 = g.testBit 3 →
          CRL_StatColor_Str g' v L = CRL_StatColor_Str g v L
            ∧ CRL_StatColor_Val g' v L = CRL_StatColor_Val g v L := by
  have hne : ¬ v = L := by omega
  have hge : v ≥ L := by omega
  refine ⟨by simp [CRL_StatColor_Str, hne, hge], by simp [CRL_StatColor_Val, hne, hge], ?_⟩
  intro g' hbit
  have hiff : Int.land g' 8 ≠ 0 ↔ Int.land g 8 ≠ 0 := by
    rw [land_eight_ne_zero_iff, land_eight_ne_zero_iff, hbit]
  simp only [CRL_StatColor_Str, CRL_StatColor_Val, hne, hge, if_false, if_true]
  by_cases hg : Int.land g 8 ≠ 0
  · rw [if_pos hg, if_pos hg, if_pos (hiff.2 hg), if_pos (hiff.2 hg)]
    exact ⟨rfl, rfl⟩
  · rw [if_neg hg, if_neg hg, if_neg (fun hc => hg (hiff.1 hc)),
      if_neg (fun hc => hg (hiff.1 hc))]
    exact ⟨rfl, rfl⟩

theorem statColor_over_limit_witness :
    (130 : Int) > 128
      ∧ (CRL_StatColor_Str 8 130 128
          = (if Int.land 8 8 ≠ 0 then Color.CR_GRAY else Color.CR_LIGHTGRAY)
        ∧ CRL_StatColor_Val 8 130 128
          = (if Int.land 8 8 ≠ 0 then Color.CR_RED else Color.CR_YELLOW)
        ∧ ∀ g' : Int, g'.testBit 3 = (8 : Int).testBit 3 →
            CRL_StatColor_Str g' 130 128 = CRL_StatColor_Str 8 130 128
              ∧ CRL_StatColor_Val g' 130 128 = CRL_StatColor_Val 8 130 128) :=
  ⟨by decide, statColor_over_limit 8 130 128 (by decide)⟩

/-- C3: for every `v < L` and every `gametic`, `CRL_StatColor_Str` returns `CR_GRAY` and
`CRL_StatColor_Val` returns `CR_GREEN`, which differs from the value colour returned at
the limit (`CR_YELLOW`, at any tic); neither result depends on the tic. -/
theorem statColor_under_limit (g v L : Int) (h : v < L) :
    CRL_StatColor_Str g v L = Color.CR_GRAY
      ∧ CRL_StatColor_Val g v L = Color.CR_GREEN
      ∧ ∀ g' : Int, CRL_StatColor_Val g' L L = Color.CR_YELLOW
          ∧ CRL_StatColor_Val g v L ≠ CRL_StatColor_Val g' L L := by
  have hne : ¬ v = L := by omega
  have hge : ¬ v ≥ L := by omega
  refine ⟨by simp [CRL_StatColor_Str, hne, hge], by simp [CRL_StatColor_Val, hne, hge], ?_⟩
  intro g'
  simp [CRL_StatColor_Val, hne, hge]

theorem statColor_under_limit_witness :
    (100 : Int) < 128
      ∧ (CRL_StatColor_Str 8 100 128 = Color.CR_GRAY
        ∧ CRL_StatColor_Val 8 100 128 = Color.CR_GREEN
        ∧ ∀ g' : Int, CRL_StatColor_Val g' 128 128 = Color.CR_YELLOW
            ∧ CRL_StatColor_Val 8 100 128 ≠ CRL_StatColor_Val g' 128 128) :=
  ⟨by decide, statColor_under_limit 8 100 128 (by decide)⟩

/-- C4, as stated, fails: at tic 0 (bit 3 clear) the over-budget value 130 and the
at-limit value 128 get the same colour on both scales, and at tic 8 (bit 3 set) the
over-budget value 130 and the under-limit value 100 get the same label colour. -/
theorem color_determines_class_counterexample :
    (CRL_StatColor_Str 0 130 128 = CRL_StatColor_Str 0 128 128
        ∧ CRL_StatColor_Val 0 130 128 = CRL_StatColor_Val 0 128 128
        ∧ statClass 130 128 ≠ statClass 128 128)
      ∧ (CRL_StatColor_Str 8 130 128 = CRL_StatColor_Str 8 100 128
        ∧ statClass 130 128 ≠ statClass 100 128) := by
  decide

/-- C4, amended: at a tic with bit 3 set the value colour alone determines the class
(three pairwise different colours); at every tic the value colour separates `v < L` from
the other two classes and the label colour separates `v == L` from `v < L`; with bit 3
clear the label colour separates `v < L` from the other two classes, and with bit 3 set
it separates `v == L` from the other two. -/
theorem color_determines_class_amended (g v1 L1 v2 L2 : Int) :
    (Int.land g 8 ≠ 0 → CRL_StatColor_Val g v1 L1 = CRL_StatColor_Val g v2 L2 →
        statClass v1 L1 = statClass v2 L2)
      ∧ (CRL_StatColor_Val g v1 L1 = CRL_StatColor_Val g v2 L2 → (v1 < L1 ↔ v2 < L2))
      ∧ (CRL_StatColor_Str g v1 L1 = CRL_StatColor_Str g v2 L2 → ¬ (v1 = L1 ∧ v2 < L2))
      ∧ (Int.land g 8 = 0 → CRL_StatColor_Str g v1 L1 = CRL_StatColor_Str g v2 L2 →
          (v1 < L1 ↔ v2 < L2))
      ∧ (Int.land g 8 ≠ 0 → CRL_StatColor_Str g v1 L1 = CRL_StatColor_Str g v2 L2 →
          (v1 = L1 ↔ v2 = L2)) := by
  unfold CRL_StatColor_Val CRL_StatColor_Str statClass
  refine ⟨?_, ?_, ?_, ?_, ?_⟩
  · intro hg
    split_ifs <;> first | omega | (intro hc; first | omega | (cases hc; try rfl))
  · split_ifs <;> first | omega | (intro hc; first | omega | (cases hc; try rfl))
  · split_ifs <;> first | omega | (intro hc; first | omega | (cases hc; try rfl))
  · intro hg
    split_ifs <;> first | omega | (intro hc; first | omega | (cases hc; try rfl))
  · intro hg
    split_ifs <;> first | omega | (intro hc; first | omega | (cases hc; try rfl))

theorem color_determines_class_amended_witness :
    (Int.land 8 8 ≠ 0 → CRL_StatColor_Val 8 130 128 = CRL_StatColor_Val 8 200 128 →
        statClass 130 128 = statClass 200 128)
      ∧ (CRL_StatColor_Val 8 130 128 = CRL_StatColor_Val 8 200 128 →
          ((130 : Int) < 128 ↔ (200 : Int) < 128))
      ∧ (CRL_StatColor_Str 8 130 128 = CRL_StatColor_Str 8 200 128 →
          ¬ ((130 : Int) = 128 ∧ (200 : Int) < 128))
      ∧ (Int.land 8 8 = 0 → CRL_StatColor_Str 8 130 128 = CRL_StatColor_Str 8 200 128 →
          ((130 : Int) < 128 ↔ (200 : Int) < 128))
      ∧ (Int.land 8 8 ≠ 0 → CRL_StatColor_Str 8 130 128 = CRL_StatColor_Str 8 200 128 →
          ((130 : Int) = 128 ↔ (200 : Int) = 128)) :=
  color_determines_class_amended 8 130 128 200 128

end CRL

namespace CRL

/-! ## Widget gates -/

/-- C5: in mode 2 (only when over limit), whenever the counter of one of the six limit
widgets is strictly below its limit, `CRL_StatDrawer` emits no command on that widget's
row, whatever the tic and the other counters. -/
theorem mode2_under_limit_hidden (w : Widget) (s : State)
    (hmode : w.mode s = 2) (hlt : w.value s < w.limit s) : emittedFor w s = [] := by
  rw [emittedFor_eq]
  cases w <;> simp only [Widget.mode, Widget.value, Widget.limit] at hmode hlt <;>
    simp only [widgetCmds] <;> rw [if_neg] <;> rw [hmode] <;> omega

theorem mode2_under_limit_hidden_witness :
    Widget.PLN.mode (sampleState 8 2 2 100 100) = 2
      ∧ Widget.PLN.value (sampleState 8 2 2 100 100)
          < Widget.PLN.limit (sampleState 8 2 2 100 100)
      ∧ emittedFor Widget.PLN (sampleState 8 2 2 100 100) = [] :=
  ⟨by decide, by decide,
    mode2_under_limit_hidden Widget.PLN (sampleState 8 2 2 100 100) (by decide) (by decide)⟩

/-- C6, as stated, fails: in mode 2 with `numsprites` equal to `CRL_MaxVisSprites`
(128 of 128) the sprites widget is rendered, although the value does not exceed the limit. -/
theorem mode2_at_limit_counterexample :
    Widget.SPR.mode (sampleState 0 2 2 128 0) = 2
      ∧ Widget.SPR.value (sampleState 0 2 2 128 0) = 128
      ∧ Widget.SPR.limit (sampleState 0 2 2 128 0) = 128
      ∧ emittedFor Widget.SPR (sampleState 0 2 2 128 0)
          = [⟨"SPR:", 0, 100, Color.CR_LIGHTGRAY⟩, ⟨"128/128", 32, 100, Color.CR_YELLOW⟩] := by
  decide

/-- C6, amended: in mode 2 the widgets PLT and ANI are rendered if and only if the value
strictly exceeds the limit, and the widgets SPR, SEG, PLN and OPN are rendered if and only
if the value is at or above the limit. -/
theorem mode2_gate_amended (w : Widget) (s : State) (hmode : w.mode s = 2) :
    ((w = Widget.PLT ∨ w = Widget.ANI) →
        (emittedFor w s ≠ [] ↔ w.value s > w.limit s))
      ∧ ((w = Widget.SPR ∨ w = Widget.SEG ∨ w = Widget.PLN ∨ w = Widget.OPN) →
        (emittedFor w s ≠ [] ↔ w.value s ≥ w.limit s)) := by
  rw [emittedFor_eq]
  cases w <;> simp only [Widget.mode] at hmode <;>
    simp [widgetCmds, Widget.value, Widget.limit, hmode, statCmds, plnPair]

theorem mode2_gate_amended_witness :
    Widget.SPR.mode (sampleState 0 2 2 128 0) = 2
      ∧ (((Widget.SPR = Widget.PLT ∨ Widget.SPR = Widget.ANI) →
          (emittedFor Widget.SPR (sampleState 0 2 2 128 0) ≠ []
            ↔ Widget.SPR.value (sampleState 0 2 2 128 0)
                > Widget.SPR.limit (sampleState 0 2 2 128 0)))
        ∧ ((Widget.SPR = Widget.SPR ∨ Widget.SPR = Widget.SEG ∨ Widget.SPR = Widget.PLN
              ∨ Widget.SPR = Widget.OPN) →
          (emittedFor Widget.SPR (sampleState 0 2 2 128 0) ≠ []
            ↔ Widget.SPR.value (sampleState 0 2 2 128 0)
                ≥ Widget.SPR.limit (sampleState 0 2 2 128 0)))) :=
  ⟨by decide, mode2_gate_amended Widget.SPR (sampleState 0 2 2 128 0) (by decide)⟩

/-- C7: in mode 1 (always show) the widgets of the group are rendered for every counter
value: with `crl_widget_playstate == 1` exactly a label and a value command for each of
PLT and ANI, with `crl_widget_render == 1` exactly a label and a value command for each
of SPR, SEG, PLN and OPN. -/
theorem mode1_always_shown (s : State) :
    (s.crl_widget_playstate = 1 →
        emittedFor Widget.PLT s
            = [⟨"PLT:", 0, 70, CRL_StatColor_Str s.gametic s.CRL_plats_counter s.CRL_MaxPlats⟩,
               ⟨M_snprintf 16 (fmt_d_d s.CRL_plats_counter s.CRL_MaxPlats), 32, 70,
                CRL_StatColor_Val s.gametic s.CRL_plats_counter s.CRL_MaxPlats⟩]
          ∧ emittedFor Widget.ANI s
            = [⟨"ANI:", 0, 80,
                CRL_StatColor_Str s.gametic s.CRL_lineanims_counter s.CRL_MaxAnims⟩,
               ⟨M_snprintf 16 (fmt_d_d s.CRL_lineanims_counter s.CRL_MaxAnims), 32, 80,
                CRL_StatColor_Val s.gametic s.CRL_lineanims_counter s.CRL_MaxAnims⟩])
      ∧ (s.crl_widget_render = 1 →
        emittedFor Widget.SPR s
            = [⟨"SPR:", 0, 100,
                CRL_StatColor_Str s.gametic s.CRLData.numsprites s.CRL_MaxVisSprites⟩,
               ⟨M_snprintf 16 (fmt_d_d s.CRLData.numsprites s.CRL_MaxVisSprites), 32, 100,
                CRL_StatColor_Val s.gametic s.CRLData.numsprites s.CRL_MaxVisSprites⟩]
          ∧ emittedFor Widget.SEG s
            = [⟨"SEG:", 0, 110,
                CRL_StatColor_Str s.gametic s.CRLData.numsegs s.CRL_MaxDrawSegs⟩,
               ⟨M_snprintf 16 (fmt_d_d s.CRLData.numsegs s.CRL_MaxDrawSegs), 32, 110,
                CRL_StatColor_Val s.gametic s.CRLData.numsegs s.CRL_MaxDrawSegs⟩]
          ∧ emittedFor Widget.PLN s
            = [⟨"PLN:", 0, 120,
                if add32 s.CRLData.numcheckplanes s.CRLData.numfindplanes ≥ s.CRL_MaxVisPlanes
                then (if Int.land s.gametic 8 ≠ 0 then Color.CR_GRAY else Color.CR_LIGHTGRAY)
                else Color.CR_GRAY⟩,
               ⟨M_snprintf 32 (fmt_d_d (add32 s.CRLData.numcheckplanes s.CRLData.numfindplanes)
                  s.CRL_MaxVisPlanes), 32, 120,
                if add32 s.CRLData.numcheckplanes s.CRLData.numfindplanes ≥ s.CRL_MaxVisPlanes
                then (if Int.land s.gametic 8 ≠ 0 then Color.CR_RED else Color.CR_YELLOW)
                else Color.CR_GREEN⟩]
          ∧ emittedFor Widget.OPN s
            = [⟨"OPN:", 0, 130,
                CRL_StatColor_Str s.gametic s.CRLData.numopenings s.CRL_MaxOpenings⟩,
               ⟨M_snprintf 16 (fmt_d_d s.CRLData.numopenings s.CRL_MaxOpenings), 32, 130,
                CRL_StatColor_Val s.gametic s.CRLData.numopenings s.CRL_MaxOpenings⟩]) := by
  simp only [emittedFor_eq]
  constructor
  · intro h
    simp [widgetCmds, h, statCmds]
  · intro h
    simp [widgetCmds, h, statCmds, plnPair]

theorem mode1_always_shown_witness :
    (sampleState 8 1 1 0 0).crl_widget_playstate = 1
      ∧ (sampleState 8 1 1 0 0).crl_widget_render = 1
      ∧ emittedFor Widget.PLT (sampleState 8 1 1 0 0)
          = [⟨"PLT:", 0, 70, Color.CR_GRAY⟩, ⟨"3/30", 32, 70, Color.CR_GREEN⟩]
      ∧ emittedFor Widget.SPR (sampleState 8 1 1 0 0)
          = [⟨"SPR:", 0, 100, Color.CR_GRAY⟩, ⟨"0/128", 32, 100, Color.CR_GREEN⟩] :=
  ⟨rfl, rfl,
    ((mode1_always_shown (sampleState 8 1 1 0 0)).1 rfl).1.trans (by decide),
    ((mode1_always_shown (sampleState 8 1 1 0 0)).2 rfl).1.trans (by decide)⟩

end CRL

namespace CRL

/-! ## Out-of-range modes -/

/-- C8, as stated, fails: with 130 sprites against a limit of 128, mode 3 of the render
group emits nothing while mode 2 emits the sprites widget; likewise mode 3 of the
play-state group with 31 platforms against a limit of 30. -/
theorem mode_clamp_counterexample :
    (emitted (withRender (sampleState 8 0 0 130 0) 3) = []
        ∧ emitted (withRender (sampleState 8 0 0 130 0) 2)
          = [⟨"SPR:", 0, 100, Color.CR_GRAY⟩, ⟨"130/128", 32, 100, Color.CR_RED⟩])
      ∧ (emitted (withPlaystate { sampleState 8 0 0 0 0 with CRL_plats_counter := 31 } 3) = []
        ∧ emitted (withPlaystate { sampleState 8 0 0 0 0 with CRL_plats_counter := 31 } 2)
          = [⟨"PLT:", 0, 70, Color.CR_GRAY⟩, ⟨"31/30", 32, 70, Color.CR_RED⟩]) := by
  decide

/-- C8, amended: a widget mode outside the valid range is treated as mode 0: for every
counter state and tic, `CRL_StatDrawer` with `crl_widget_render` (or
`crl_widget_playstate`) greater than 2 or negative emits the same draw commands as with
the value 0. -/
theorem mode_out_of_range_amended (s : State) (m : Int) (hm : 2 < m ∨ m < 0) :
    emitted (withRender s m) = emitted (withRender s 0)
      ∧ emitted (withPlaystate s m) = emitted (withPlaystate s 0) := by
  have h1 : ¬ m = 1 := by omega
  have h2 : ¬ m = 2 := by omega
  rw [emitted_eq, emitted_eq, emitted_eq, emitted_eq]
  constructor
  · simp [allCmds, coordsCmds, widgetCmds, withRender, h1, h2]
  · simp [allCmds, coordsCmds, widgetCmds, withPlaystate, h1, h2]

theorem mode_out_of_range_amended_witness :
    ((2 : Int) < 3 ∨ (3 : Int) < 0)
      ∧ (emitted (withRender (sampleState 8 1 2 130 0) 3)
          = emitted (withRender (sampleState 8 1 2 130 0) 0)
        ∧ emitted (withPlaystate (sampleState 8 1 2 130 0) 3)
          = emitted (withPlaystate (sampleState 8 1 2 130 0) 0)) :=
  ⟨by decide, mode_out_of_range_amended (sampleState 8 1 2 130 0) 3 (by decide)⟩

/-! ## Purity -/

/-- C9: the compositor is a pure function of its inputs: two calls with identical
counters, limits, widget modes and tic (whatever is already on the screen) emit identical
sequences of draw commands, each call only appends its commands to the screen, and it
leaves every counter, limit and mode unchanged. -/
theorem CRL_StatDrawer_pure (s1 s2 : State) (h : inputs s1 = inputs s2) :
    emitted s1 = emitted s2
      ∧ (CRL_StatDrawer s1).screen = s1.screen ++ emitted s1
      ∧ inputs (CRL_StatDrawer s1) = inputs s1 := by
  refine ⟨?_, ?_, ?_⟩
  · rw [emitted_eq, emitted_eq, ← allCmds_inputs s1, ← allCmds_inputs s2, h]
  · rw [emitted_eq, CRL_StatDrawer_eq]
    rfl
  · rw [CRL_StatDrawer_eq]
    rfl

theorem CRL_StatDrawer_pure_witness :
    inputs (sampleState 8 1 2 130 0)
        = inputs (emit (sampleState 8 1 2 130 0) [⟨"FPS", 300, 30, Color.CR_GRAY⟩])
      ∧ (emitted (sampleState 8 1 2 130 0)
          = emitted (emit (sampleState 8 1 2 130 0) [⟨"FPS", 300, 30, Color.CR_GRAY⟩])
        ∧ (CRL_StatDrawer (sampleState 8 1 2 130 0)).screen
          = (sampleState 8 1 2 130 0).screen ++ emitted (sampleState 8 1 2 130 0)
        ∧ inputs (CRL_StatDrawer (sampleState 8 1 2 130 0))
          = inputs (sampleState 8 1 2 130 0)) :=
  ⟨rfl, CRL_StatDrawer_pure (sampleState 8 1 2 130 0)
    (emit (sampleState 8 1 2 130 0) [⟨"FPS", 300, 30, Color.CR_GRAY⟩]) rfl⟩

/-! ## The plane widget -/

/-- C10: the plane widget depends on `numcheckplanes` and `numfindplanes` only through
their sum: two counter records that differ only in how the same total is split between
the two counters yield identical draw commands, for every mode and tic. -/
theorem planes_only_through_sum (s : State) (check find : Int)
    (h : check + find = s.CRLData.numcheckplanes + s.CRLData.numfindplanes) :
    emitted (withPlanes s check find) = emitted s := by
  rw [emitted_eq, emitted_eq]
  have ha : add32 check find = add32 s.CRLData.numcheckplanes s.CRLData.numfindplanes := by
    unfold add32
    rw [h]
  simp only [allCmds, coordsCmds, widgetCmds, withPlanes, ha]

theorem planes_only_through_sum_witness :
    (100 : Int) + 30
        = (sampleState 8 1 2 0 130).CRLData.numcheckplanes
          + (sampleState 8 1 2 0 130).CRLData.numfindplanes
      ∧ emitted (withPlanes (sampleState 8 1 2 0 130) 100 30)
          = emitted (sampleState 8 1 2 0 130) :=
  ⟨by decide, planes_only_through_sum (sampleState 8 1 2 0 130) 100 30 (by decide)⟩

end CRL

namespace CRL

/-! ## `D_Display` equals its list of actions -/

theorem upd_self (g : Game) : upd g g.stat [] = g := by
  simp [upd]

theorem upd_upd (g : Game) (st st' : State) (l l' : List Act) :
    upd (upd g st l) st' l' = upd g st' (l ++ l') := by
  simp [upd]

theorem act_eq (a : Act) (g : Game) : act a g = upd g g.stat [a] := rfl

theorem upd_stat (g : Game) (st : State) (l : List Act) : (upd g st l).stat = st := rfl

theorem upd_fields (g : Game) (st : State) (l : List Act) :
    (upd g st l).automapactive = g.automapactive
      ∧ (upd g st l).demoplayback = g.demoplayback
      ∧ (upd g st l).demorecording = g.demorecording
      ∧ (upd g st l).crl_demo_timer = g.crl_demo_timer
      ∧ (upd g st l).crl_demo_timerdir = g.crl_demo_timerdir
      ∧ (upd g st l).deftotaldemotics = g.deftotaldemotics
      ∧ (upd g st l).defdemotics = g.defdemotics
      ∧ (upd g st l).leveltime = g.leveltime
      ∧ (upd g st l).crl_widget_health = g.crl_widget_health
      ∧ (upd g st l).crl_demo_bar = g.crl_demo_bar
      ∧ (upd g st l).crl_showfps = g.crl_showfps
      ∧ (upd g st l).testcontrols = g.testcontrols
      ∧ (upd g st l).testcontrols_mousespeed = g.testcontrols_mousespeed
      ∧ (upd g st l).paused = g.paused
      ∧ (upd g st l).MenuActive = g.MenuActive
      ∧ (upd g st l).askforquit = g.askforquit
      ∧ (upd g st l).netgame = g.netgame
      ∧ (upd g st l).viewwindowy = g.viewwindowy
      ∧ (upd g st l).gamestate = g.gamestate := by
  simp [upd]

theorem ite_upd (c : Prop) [Decidable c] (g : Game) (st : State) (l l' : List Act) :
    (if c then upd g st l else upd g st l') = upd g st (if c then l else l') := by
  split_ifs <;> rfl

theorem D_Display_blocks (g : Game) :
    D_Display g = if g.nodrawers then g
      else tailBlock (stateBlock (act Act.CRLSurface_assign
        (if g.setsizeneeded then act Act.R_ExecuteSetViewSize g else g))) := by
  rfl

theorem levelBlock_eq (g : Game) :
    levelBlock g = upd g g.stat (levelActs g) := by
  simp only [levelBlock, act_eq, upd_upd, upd_stat, upd_fields, ite_upd]
  congr 1
  simp only [levelActs, overlayAct, timerActs, healthActs, barActs, fpsActs]
  split_ifs <;> simp

theorem stateBlock_eq (g : Game) :
    stateBlock g = upd g g.stat (stateActs g) := by
  unfold stateBlock stateActs
  split
  · split_ifs
    · exact (upd_self g).symm
    · exact levelBlock_eq g
  all_goals rfl

theorem ite_upd_self (c : Prop) [Decidable c] (g : Game) (l : List Act) :
    (if c then upd g g.stat l else g) = upd g g.stat (if c then l else []) := by
  split_ifs
  · rfl
  · exact (upd_self g).symm

theorem tailBlock_eq (g : Game) :
    tailBlock g = upd g g.stat (mouseActs g ++ (pauseActs g ++ tailActs)) := by
  simp only [tailBlock, act_eq, ite_upd_self, upd_upd, upd_stat, upd_fields, ite_upd]
  congr 1
  simp only [mouseActs, pauseActs, tailActs]
  split_ifs <;> simp

theorem stateActs_upd (g : Game) (l : List Act) :
    stateActs (upd g g.stat l) = stateActs g := rfl

theorem mouseActs_upd (g : Game) (st : State) (l : List Act) :
    mouseActs (upd g st l) = mouseActs g := rfl

theorem pauseActs_upd (g : Game) (st : State) (l : List Act) :
    pauseActs (upd g st l) = pauseActs g := rfl

/-- One call appends `displayActs g` to the record of calls; `D_Display` itself assigns
none of the variables of `Game`. -/
theorem D_Display_eq (g : Game) :
    D_Display g = upd g g.stat (displayActs g) := by
  rw [D_Display_blocks]
  unfold displayActs sizeActs
  by_cases hn : g.nodrawers = true
  · rw [if_pos hn, if_pos hn]
    exact (upd_self g).symm
  · have hn' : g.nodrawers = false := by simpa using hn
    simp only [hn', act_eq, ite_upd_self, stateBlock_eq, tailBlock_eq, upd_upd, upd_stat,
      upd_fields, stateActs_upd, mouseActs_upd, pauseActs_upd, true_and, if_false,
      Bool.false_eq_true, List.append_assoc]

theorem calls_eq (g : Game) : calls g = displayActs g := by
  simp [calls, D_Display_eq, upd]

end CRL

namespace CRL

/-! ## The demo sequence index -/

theorem D_DoAdvanceDemo_demosequence (g : Game) :
    (D_DoAdvanceDemo g).demosequence = nextSequence g.demosequence := by
  simp only [D_DoAdvanceDemo, act, nextSequence]
  split_ifs <;> rfl

theorem iterate_demosequence (n : Nat) (g : Game) :
    (D_DoAdvanceDemo^[n] g).demosequence = nextSequence^[n] g.demosequence := by
  induction n with
  | zero => rfl
  | succ n ih =>
    rw [Function.iterate_succ_apply', Function.iterate_succ_apply',
      D_DoAdvanceDemo_demosequence, ih]

end CRL

namespace CRL

/-! ## Membership in the parts of a frame -/

theorem split_unique {α : Type} {x : α} :
    ∀ (A B pre post : List α), x ∉ A → x ∉ B → pre ++ x :: post = A ++ x :: B →
      pre = A ∧ post = B := by
  intro A
  induction A with
  | nil =>
    intro B pre post _ hB h
    cases pre with
    | nil => simpa using h
    | cons y pre' =>
      simp only [List.cons_append, List.nil_append, List.cons.injEq] at h
      exact absurd (h.2 ▸ by simp) hB
  | cons a A' ih =>
    intro B pre post hA hB h
    cases pre with
    | nil =>
      simp only [List.cons_append, List.nil_append, List.cons.injEq] at h
      exact absurd (h.1 ▸ by simp) hA
    | cons y pre' =>
      simp only [List.cons_append, List.cons.injEq] at h
      have hA' : x ∉ A' := fun hx => hA (List.mem_cons_of_mem _ hx)
      obtain ⟨h1, h2⟩ := ih B pre' post hA' hB h.2
      exact ⟨by rw [h.1, h1], h2⟩

theorem mem_sizeActs (g : Game) (a : Act) :
    a ∈ sizeActs g ↔ g.setsizeneeded = true ∧ a = Act.R_ExecuteSetViewSize := by
  unfold sizeActs
  split_ifs with h <;> simp [h]

theorem mem_timerActs (g : Game) (a : Act) :
    a ∈ timerActs g → ∃ n, a = Act.CRL_DemoTimer n := by
  unfold timerActs
  split_ifs <;> simp <;> exact fun h => ⟨_, h⟩

theorem mem_healthActs (g : Game) (a : Act) :
    a ∈ healthActs g ↔ g.crl_widget_health ≠ 0 ∧ a = Act.CRL_DrawTargetsHealth := by
  unfold healthActs
  split_ifs with h <;> simp [h]

theorem mem_barActs (g : Game) (a : Act) :
    a ∈ barActs g ↔ (g.demoplayback = true ∧ g.crl_demo_bar ≠ 0) ∧ a = Act.CRL_DemoBar := by
  unfold barActs
  split_ifs with h <;> simp [h]

theorem mem_fpsActs (g : Game) (a : Act) :
    a ∈ fpsActs g ↔ g.crl_showfps ≠ 0 ∧ a = Act.CRL_DrawFPS := by
  unfold fpsActs
  split_ifs with h <;> simp [h]

theorem mem_mouseActs (g : Game) (a : Act) :
    a ∈ mouseActs g
      ↔ g.testcontrols = true ∧ a = Act.V_DrawMouseSpeedBox g.testcontrols_mousespeed := by
  unfold mouseActs
  split_ifs with h <;> simp [h]

theorem pauseActs_eq (g : Game) :
    pauseActs g
      = if g.paused = true ∧ g.MenuActive = false ∧ g.askforquit = false then
          [Act.V_DrawPatch 160 (if g.netgame = false then add32 g.viewwindowy 5 else 70) "PAUSED"]
        else [] := by
  unfold pauseActs
  cases g.paused <;> cases g.MenuActive <;> cases g.askforquit <;> cases g.netgame <;> simp

theorem mem_pauseActs (g : Game) (a : Act) :
    a ∈ pauseActs g
      ↔ (g.paused = true ∧ g.MenuActive = false ∧ g.askforquit = false)
        ∧ a = Act.V_DrawPatch 160 (if g.netgame = false then add32 g.viewwindowy 5 else 70)
            "PAUSED" := by
  rw [pauseActs_eq]
  split_ifs with h <;> simp [h]

theorem timerActs_not_mem (g : Game) (a : Act) (h : ∀ n, a ≠ Act.CRL_DemoTimer n) :
    a ∉ timerActs g := by
  intro hm
  obtain ⟨n, hn⟩ := mem_timerActs g a hm
  exact h n hn

/-- The actions of a drawn level frame, split at the stat drawer. -/
theorem displayActs_level (g : Game) (hd : g.nodrawers = false)
    (hs : g.gamestate = gamestate_t.GS_LEVEL) (ht : g.stat.gametic ≠ 0) :
    displayActs g
      = (sizeActs g ++ [Act.CRLSurface_assign, Act.R_RenderPlayerView, overlayAct g])
        ++ Act.CRL_StatDrawer :: (timerActs g ++ (healthActs g
          ++ ([Act.CT_Drawer, Act.UpdateState_or UpdateFlag.I_FULLVIEW, Act.SB_Drawer]
          ++ (barActs g ++ (fpsActs g ++ (mouseActs g ++ (pauseActs g ++ tailActs))))))) := by
  simp [displayActs, stateActs, levelActs, hd, hs, ht]

/-- The actions of a drawn frame outside a running level. -/
theorem displayActs_other (g : Game) (hd : g.nodrawers = false)
    (hs : ¬ (g.gamestate = gamestate_t.GS_LEVEL ∧ g.stat.gametic ≠ 0)) :
    displayActs g
      = sizeActs g ++ (Act.CRLSurface_assign
        :: ((match g.gamestate with
            | gamestate_t.GS_LEVEL => []
            | gamestate_t.GS_INTERMISSION => [Act.IN_Drawer]
            | gamestate_t.GS_FINALE => [Act.F_Drawer]
            | gamestate_t.GS_DEMOSCREEN => [Act.D_PageDrawer])
          ++ (mouseActs g ++ (pauseActs g ++ tailActs)))) := by
  unfold displayActs stateActs
  cases hg : g.gamestate <;> simp [hd, hg] at hs ⊢
  simp [hs]

theorem overlayAct_cases (g : Game) :
    (g.automapactive = true ∧ overlayAct g = Act.AM_Drawer)
      ∨ (g.automapactive = false ∧ overlayAct g = Act.CRL_DrawVisPlanes 1) := by
  unfold overlayAct
  cases g.automapactive <;> simp

end CRL

namespace CRL

/-! ## The plane widget against the colour functions -/

/-- Away from the limit the colours computed in place by the plane widget are those of
`CRL_StatColor_Str` and `CRL_StatColor_Val`. -/
theorem plnPair_off_limit (g total l : Int) (h : total ≠ l) :
    plnPair g total l
      = [⟨"PLN:", 0, 120, CRL_StatColor_Str g total l⟩,
         ⟨M_snprintf 32 (fmt_d_d total l), 32, 120, CRL_StatColor_Val g total l⟩] := by
  simp [plnPair, CRL_StatColor_Str, CRL_StatColor_Val, h]

/-- C11: the plane widget at its limit.  With 128 planes of 128 at tic 8 in mode 1 the PLN
label is `CR_GRAY` and the PLN value `CR_RED` (the flashing over-budget colours), while
`CRL_StatColor_Str` and `CRL_StatColor_Val` give the neutral `CR_LIGHTGRAY` and
`CR_YELLOW` at the limit, which is what the sprites widget shows for 128 of 128. -/
theorem pln_at_limit_evaluation :
    Widget.PLN.value (sampleState 8 0 1 128 128) = Widget.PLN.limit (sampleState 8 0 1 128 128)
      ∧ emittedFor Widget.PLN (sampleState 8 0 1 128 128)
          = [⟨"PLN:", 0, 120, Color.CR_GRAY⟩, ⟨"128/128", 32, 120, Color.CR_RED⟩]
      ∧ CRL_StatColor_Str 8 128 128 = Color.CR_LIGHTGRAY
      ∧ CRL_StatColor_Val 8 128 128 = Color.CR_YELLOW
      ∧ emittedFor Widget.SPR (sampleState 8 0 1 128 128)
          = [⟨"SPR:", 0, 100, Color.CR_LIGHTGRAY⟩, ⟨"128/128", 32, 100, Color.CR_YELLOW⟩] := by
  decide

/-! ## Widget positions -/

theorem coordsCmds_pos (s : State) :
    ((coordsCmds s).map DrawCmd.pos).Sublist
      [(0, 30), (0, 40), (0, 50), (16, 30), (16, 40), (32, 50)] := by
  unfold coordsCmds
  split_ifs
  · exact List.Sublist.refl _
  · exact List.nil_sublist _

theorem widgetCmds_pos (s : State) (w : Widget) :
    (widgetCmds s w).map DrawCmd.pos = []
      ∨ (widgetCmds s w).map DrawCmd.pos = [(0, w.row), (32, w.row)] := by
  cases w <;> simp only [widgetCmds] <;> split_ifs <;>
    simp [statCmds, plnPair, DrawCmd.pos, Widget.row]

theorem widgetCmds_pos_sublist (s : State) (w : Widget) :
    ((widgetCmds s w).map DrawCmd.pos).Sublist [(0, w.row), (32, w.row)] := by
  rcases widgetCmds_pos s w with h | h
  · rw [h]
    exact List.nil_sublist _
  · exact h ▸ List.Sublist.refl _

theorem emitted_pos_sublist (s : State) :
    ((emitted s).map DrawCmd.pos).Sublist fixedPositions := by
  rw [emitted_eq]
  simp only [allCmds, List.map_append]
  have hfix : fixedPositions
      = [(0, 30), (0, 40), (0, 50), (16, 30), (16, 40), (32, 50)]
        ++ ([(0, Widget.PLT.row), (32, Widget.PLT.row)]
        ++ ([(0, Widget.ANI.row), (32, Widget.ANI.row)]
        ++ ([(0, Widget.SPR.row), (32, Widget.SPR.row)]
        ++ ([(0, Widget.SEG.row), (32, Widget.SEG.row)]
        ++ ([(0, Widget.PLN.row), (32, Widget.PLN.row)]
        ++ [(0, Widget.OPN.row), (32, Widget.OPN.row)]))))) := rfl
  rw [hfix]
  exact (coordsCmds_pos s).append ((widgetCmds_pos_sublist s _).append
    ((widgetCmds_pos_sublist s _).append ((widgetCmds_pos_sublist s _).append
    ((widgetCmds_pos_sublist s _).append ((widgetCmds_pos_sublist s _).append
    (widgetCmds_pos_sublist s _))))))

theorem map_ite_nil {α β : Type} (c : Prop) [Decidable c] (f : α → β) (l : List α) :
    (if c then l else []).map f = if c then l.map f else [] := by
  split_ifs <;> rfl

theorem filter_ite_nil {α : Type} (c : Prop) [Decidable c] (p : α → Bool) (l : List α) :
    (if c then l else []).filter p = if c then l.filter p else [] := by
  split_ifs <;> rfl

theorem ite_nil_sublist {α : Type} (c : Prop) [Decidable c] (l : List α) :
    (if c then l else []).Sublist l := by
  split_ifs
  · exact List.Sublist.refl _
  · exact List.nil_sublist _

/-- The text and the position of every command of one call, in call order. -/
theorem emitted_sites (s : State) :
    (emitted s).map (fun c => (c.text, c.x, c.y))
      = (if s.crl_widget_coords ≠ 0 then
          [("X:", 0, 30), ("Y:", 0, 40), ("ANG:", 0, 50),
           (M_snprintf 16 (fmt_d s.CRLWidgets.x), 16, 30),
           (M_snprintf 16 (fmt_d s.CRLWidgets.y), 16, 40),
           (M_snprintf 16 (fmt_d s.CRLWidgets.ang), 32, 50)]
         else [])
        ++ ((if s.crl_widget_playstate = 1
              ∨ (s.crl_widget_playstate = 2 ∧ s.CRL_plats_counter > s.CRL_MaxPlats) then
            [("PLT:", 0, 70),
             (M_snprintf 16 (fmt_d_d s.CRL_plats_counter s.CRL_MaxPlats), 32, 70)]
           else [])
        ++ ((if s.crl_widget_playstate = 1
              ∨ (s.crl_widget_playstate = 2 ∧ s.CRL_lineanims_counter > s.CRL_MaxAnims) then
            [("ANI:", 0, 80),
             (M_snprintf 16 (fmt_d_d s.CRL_lineanims_counter s.CRL_MaxAnims), 32, 80)]
           else [])
        ++ ((if s.crl_widget_render = 1
              ∨ (s.crl_widget_render = 2 ∧ s.CRLData.numsprites ≥ s.CRL_MaxVisSprites) then
            [("SPR:", 0, 100),
             (M_snprintf 16 (fmt_d_d s.CRLData.numsprites s.CRL_MaxVisSprites), 32, 100)]
           else [])
        ++ ((if s.crl_widget_render = 1
              ∨ (s.crl_widget_render = 2 ∧ s.CRLData.numsegs ≥ s.CRL_MaxDrawSegs) then
            [("SEG:", 0, 110),
             (M_snprintf 16 (fmt_d_d s.CRLData.numsegs s.CRL_MaxDrawSegs), 32, 110)]
           else [])
        ++ ((if s.crl_widget_render = 1
              ∨ (s.crl_widget_render = 2
                  ∧ add32 s.CRLData.numcheckplanes s.CRLData.numfindplanes
                      ≥ s.CRL_MaxVisPlanes) then
            [("PLN:", 0, 120),
             (M_snprintf 32 (fmt_d_d (add32 s.CRLData.numcheckplanes s.CRLData.numfindplanes)
                s.CRL_MaxVisPlanes), 32, 120)]
           else [])
        ++ (if s.crl_widget_render = 1
              ∨ (s.crl_widget_render = 2 ∧ s.CRLData.numopenings ≥ s.CRL_MaxOpenings) then
            [("OPN:", 0, 130),
             (M_snprintf 16 (fmt_d_d s.CRLData.numopenings s.CRL_MaxOpenings), 32, 130)]
           else [])))))) := by
  rw [emitted_eq]
  simp only [allCmds, widgetCmds, coordsCmds, List.map_append, map_ite_nil]
  rfl


theorem emitted_pos_of_sites (s : State) :
    (emitted s).map DrawCmd.pos
      = ((emitted s).map (fun c => (c.text, c.x, c.y))).map (fun t => (t.2.1, t.2.2)) := by
  rw [List.map_map]
  rfl

/-- With no widget group in mode 2, the positions of one call are fixed by the three
mode variables. -/
theorem emitted_pos_modes (s s' : State)
    (hc : s'.crl_widget_coords = s.crl_widget_coords)
    (hp : s'.crl_widget_playstate = s.crl_widget_playstate)
    (hr : s'.crl_widget_render = s.crl_widget_render)
    (hp2 : s.crl_widget_playstate ≠ 2) (hr2 : s.crl_widget_render ≠ 2) :
    (emitted s').map DrawCmd.pos = (emitted s).map DrawCmd.pos := by
  rw [emitted_pos_of_sites, emitted_pos_of_sites, emitted_sites, emitted_sites, hc, hp, hr]
  simp only [hp2, hr2, false_and, or_false, List.map_append, map_ite_nil, List.map_cons,
    List.map_nil]

/-- The labels of one call, which are its commands at `x = 0`, with their rows. -/
theorem emitted_labels (s : State) :
    (((emitted s).filter (fun c => decide (c.x = 0))).map (fun c => (c.text, c.y))).Sublist
      [("X:", 30), ("Y:", 40), ("ANG:", 50), ("PLT:", 70), ("ANI:", 80), ("SPR:", 100),
       ("SEG:", 110), ("PLN:", 120), ("OPN:", 130)] := by
  rw [emitted_eq]
  simp only [allCmds, widgetCmds, coordsCmds, statCmds, plnPair, List.filter_append,
    List.map_append, filter_ite_nil, map_ite_nil]
  have hfix : ([("X:", 30), ("Y:", 40), ("ANG:", 50), ("PLT:", 70), ("ANI:", 80), ("SPR:", 100),
       ("SEG:", 110), ("PLN:", 120), ("OPN:", 130)] : List (String × Int))
      = [("X:", 30), ("Y:", 40), ("ANG:", 50)] ++ ([("PLT:", 70)] ++ ([("ANI:", 80)]
        ++ ([("SPR:", 100)] ++ ([("SEG:", 110)] ++ ([("PLN:", 120)] ++ [("OPN:", 130)]))))) := rfl
  rw [hfix]
  exact (ite_nil_sublist _ _).append ((ite_nil_sublist _ _).append ((ite_nil_sublist _ _).append
    ((ite_nil_sublist _ _).append ((ite_nil_sublist _ _).append ((ite_nil_sublist _ _).append
    (ite_nil_sublist _ _))))))


theorem mem_ite_nil {α : Type} (c : Prop) [Decidable c] (x : α) (l : List α) :
    x ∈ (if c then l else []) ↔ c ∧ x ∈ l := by
  split_ifs with h <;> simp [h]

/-- The label texts of one call, in call order. -/
theorem emitted_label_texts (s : State) :
    ((emitted s).filter (fun c => decide (c.x = 0))).map DrawCmd.text
      = (if s.crl_widget_coords ≠ 0 then ["X:", "Y:", "ANG:"] else [])
        ++ ((if s.crl_widget_playstate = 1
              ∨ (s.crl_widget_playstate = 2 ∧ s.CRL_plats_counter > s.CRL_MaxPlats) then
            ["PLT:"] else [])
        ++ ((if s.crl_widget_playstate = 1
              ∨ (s.crl_widget_playstate = 2 ∧ s.CRL_lineanims_counter > s.CRL_MaxAnims) then
            ["ANI:"] else [])
        ++ ((if s.crl_widget_render = 1
              ∨ (s.crl_widget_render = 2 ∧ s.CRLData.numsprites ≥ s.CRL_MaxVisSprites) then
            ["SPR:"] else [])
        ++ ((if s.crl_widget_render = 1
              ∨ (s.crl_widget_render = 2 ∧ s.CRLData.numsegs ≥ s.CRL_MaxDrawSegs) then
            ["SEG:"] else [])
        ++ ((if s.crl_widget_render = 1
              ∨ (s.crl_widget_render = 2
                  ∧ add32 s.CRLData.numcheckplanes s.CRLData.numfindplanes
                      ≥ s.CRL_MaxVisPlanes) then
            ["PLN:"] else [])
        ++ (if s.crl_widget_render = 1
              ∨ (s.crl_widget_render = 2 ∧ s.CRLData.numopenings ≥ s.CRL_MaxOpenings) then
            ["OPN:"] else [])))))) := by
  rw [emitted_eq]
  simp only [allCmds, widgetCmds, coordsCmds, statCmds, plnPair, List.filter_append,
    List.map_append, filter_ite_nil, map_ite_nil]
  rfl

/-- Two calls that draw the same labels draw at the same positions. -/
theorem emitted_pos_labels (s s' : State)
    (h : ((emitted s').filter (fun c => decide (c.x = 0))).map DrawCmd.text
      = ((emitted s).filter (fun c => decide (c.x = 0))).map DrawCmd.text) :
    (emitted s').map DrawCmd.pos = (emitted s).map DrawCmd.pos := by
  have hm : ∀ t : String, t ∈ ((emitted s').filter (fun c => decide (c.x = 0))).map DrawCmd.text
      ↔ t ∈ ((emitted s).filter (fun c => decide (c.x = 0))).map DrawCmd.text := by
    intro t
    rw [h]
  rw [emitted_label_texts, emitted_label_texts] at hm
  simp only [List.mem_append, mem_ite_nil] at hm
  have h0 := hm "X:"
  have h1 := hm "PLT:"
  have h2 := hm "ANI:"
  have h3 := hm "SPR:"
  have h4 := hm "SEG:"
  have h5 := hm "PLN:"
  have h6 := hm "OPN:"
  simp at h0 h1 h2 h3 h4 h5 h6
  rw [emitted_pos_of_sites, emitted_pos_of_sites, emitted_sites, emitted_sites]
  simp only [ne_eq, gt_iff_lt, ge_iff_le, h0, h1, h2, h3, h4, h5, h6, List.map_append,
    map_ite_nil, List.map_cons, List.map_nil]

/-- C12: widget positions are fixed and non-overlapping.  For every state (configuration,
counters, limits, `gametic`): (1) the commands of one call of `CRL_StatDrawer` are, in call
order, the label and the value of each widget that is drawn, each at its own literal
position: coordinates at `(0, 30)`, `(0, 40)`, `(0, 50)`, `(16, 30)`, `(16, 40)`,
`(32, 50)`, and label at `(0, row)`, value at `(32, row)` with row 70 for PLT, 80 for ANI,
100 for SPR, 110 for SEG, 120 for PLN, 130 for OPN; (2) so every position comes from one
constant table; (3) no two commands of a call share a position; (4) each label has its own
row; (5) two calls that draw the same labels draw at the same positions, whatever the
counters, limits and `gametic`; (6) when no widget group is in mode 2, the positions are
fixed by the three mode variables alone. -/
theorem positions_fixed (s : State) :
    (emitted s).map (fun c => (c.text, c.x, c.y))
        = (if s.crl_widget_coords ≠ 0 then
            [("X:", 0, 30), ("Y:", 0, 40), ("ANG:", 0, 50),
             (M_snprintf 16 (fmt_d s.CRLWidgets.x), 16, 30),
             (M_snprintf 16 (fmt_d s.CRLWidgets.y), 16, 40),
             (M_snprintf 16 (fmt_d s.CRLWidgets.ang), 32, 50)]
           else [])
          ++ ((if s.crl_widget_playstate = 1
                ∨ (s.crl_widget_playstate = 2 ∧ s.CRL_plats_counter > s.CRL_MaxPlats) then
              [("PLT:", 0, 70),
               (M_snprintf 16 (fmt_d_d s.CRL_plats_counter s.CRL_MaxPlats), 32, 70)]
             else [])
          ++ ((if s.crl_widget_playstate = 1
                ∨ (s.crl_widget_playstate = 2 ∧ s.CRL_lineanims_counter > s.CRL_MaxAnims) then
              [("ANI:", 0, 80),
               (M_snprintf 16 (fmt_d_d s.CRL_lineanims_counter s.CRL_MaxAnims), 32, 80)]
             else [])
          ++ ((if s.crl_widget_render = 1
                ∨ (s.crl_widget_render = 2 ∧ s.CRLData.numsprites ≥ s.CRL_MaxVisSprites) then
              [("SPR:", 0, 100),
               (M_snprintf 16 (fmt_d_d s.CRLData.numsprites s.CRL_MaxVisSprites), 32, 100)]
             else [])
          ++ ((if s.crl_widget_render = 1
                ∨ (s.crl_widget_render = 2 ∧ s.CRLData.numsegs ≥ s.CRL_MaxDrawSegs) then
              [("SEG:", 0, 110),
               (M_snprintf 16 (fmt_d_d s.CRLData.numsegs s.CRL_MaxDrawSegs), 32, 110)]
             else [])
          ++ ((if s.crl_widget_render = 1
                ∨ (s.crl_widget_render = 2
                    ∧ add32 s.CRLData.numcheckplanes s.CRLData.numfindplanes
                        ≥ s.CRL_MaxVisPlanes) then
              [("PLN:", 0, 120),
               (M_snprintf 32 (fmt_d_d (add32 s.CRLData.numcheckplanes s.CRLData.numfindplanes)
                  s.CRL_MaxVisPlanes), 32, 120)]
             else [])
          ++ (if s.crl_widget_render = 1
                ∨ (s.crl_widget_render = 2 ∧ s.CRLData.numopenings ≥ s.CRL_MaxOpenings) then
              [("OPN:", 0, 130),
               (M_snprintf 16 (fmt_d_d s.CRLData.numopenings s.CRL_MaxOpenings), 32, 130)]
             else []))))))
      ∧ ((emitted s).map DrawCmd.pos).Sublist
          [(0, 30), (0, 40), (0, 50), (16, 30), (16, 40), (32, 50),
           (0, 70), (32, 70), (0, 80), (32, 80), (0, 100), (32, 100),
           (0, 110), (32, 110), (0, 120), (32, 120), (0, 130), (32, 130)]
      ∧ ((emitted s).map DrawCmd.pos).Nodup
      ∧ (((emitted s).filter (fun c => decide (c.x = 0))).map (fun c => (c.text, c.y))).Sublist
          [("X:", 30), ("Y:", 40), ("ANG:", 50), ("PLT:", 70), ("ANI:", 80), ("SPR:", 100),
           ("SEG:", 110), ("PLN:", 120), ("OPN:", 130)]
      ∧ (∀ s' : State,
          ((emitted s').filter (fun c => decide (c.x = 0))).map DrawCmd.text
              = ((emitted s).filter (fun c => decide (c.x = 0))).map DrawCmd.text →
            (emitted s').map DrawCmd.pos = (emitted s).map DrawCmd.pos)
      ∧ (∀ s' : State, s'.crl_widget_coords = s.crl_widget_coords →
          s'.crl_widget_playstate = s.crl_widget_playstate →
          s'.crl_widget_render = s.crl_widget_render →
          s.crl_widget_playstate ≠ 2 → s.crl_widget_render ≠ 2 →
            (emitted s').map DrawCmd.pos = (emitted s).map DrawCmd.pos) :=
  ⟨emitted_sites s, emitted_pos_sublist s, (emitted_pos_sublist s).nodup (by decide),
    emitted_labels s, fun s' h => emitted_pos_labels s s' h,
    fun s' hc hp hr hp2 hr2 => emitted_pos_modes s s' hc hp hr hp2 hr2⟩

theorem positions_fixed_witness :
    (emitted (withCoords (sampleState 8 1 1 100 50) 1)).map (fun c => (c.text, c.x, c.y))
        = [("X:", 0, 30), ("Y:", 0, 40), ("ANG:", 0, 50), ("0", 16, 30), ("0", 16, 40),
           ("0", 32, 50), ("PLT:", 0, 70), ("3/30", 32, 70), ("ANI:", 0, 80), ("5/64", 32, 80),
           ("SPR:", 0, 100), ("100/128", 32, 100), ("SEG:", 0, 110), ("10/256", 32, 110),
           ("PLN:", 0, 120), ("50/128", 32, 120), ("OPN:", 0, 130), ("100/20480", 32, 130)]
      ∧ (emitted (sampleState 0 2 2 128 7)).map DrawCmd.pos
          = (emitted (sampleState 8 2 2 130 50)).map DrawCmd.pos
      ∧ (emitted (withCoords (sampleState 0 1 1 7 9) 1)).map DrawCmd.pos
          = (emitted (withCoords (sampleState 8 1 1 100 50) 1)).map DrawCmd.pos :=
  ⟨(positions_fixed (withCoords (sampleState 8 1 1 100 50) 1)).1.trans (by decide),
    (positions_fixed (sampleState 8 2 2 130 50)).2.2.2.2.1 (sampleState 0 2 2 128 7)
      (by decide),
    (positions_fixed (withCoords (sampleState 8 1 1 100 50) 1)).2.2.2.2.2
      (withCoords (sampleState 0 1 1 7 9) 1) rfl rfl rfl (by decide) (by decide)⟩

end CRL

namespace CRL

/-! ## The order of a level frame -/

/-- C13, as stated, fails: during demo playback with the progress bar and the health
widget enabled, `CRL_DemoBar` is invoked after `CRL_DrawTargetsHealth`, `CT_Drawer` and
`SB_Drawer`, not before them. -/
theorem level_order_counterexample :
    calls playbackGame
      = [Act.CRLSurface_assign, Act.R_RenderPlayerView, Act.CRL_DrawVisPlanes 1,
         Act.CRL_StatDrawer, Act.CRL_DemoTimer 0, Act.CRL_DrawTargetsHealth, Act.CT_Drawer,
         Act.UpdateState_or UpdateFlag.I_FULLVIEW, Act.SB_Drawer, Act.CRL_DemoBar,
         Act.CRL_DrawFPS, Act.DrawMessage, Act.MN_Drawer, Act.CRL_DrawCriticalMessage,
         Act.NetUpdate, Act.I_FinishUpdate] := by
  decide

/-- C13, amended: in a drawn level frame with `gametic != 0` the order is: 3D view, automap
or visplane overlay, `CRL_StatDrawer`, demo timer, target-health widget, `CT_Drawer`,
`SB_Drawer`, demo progress bar, FPS counter; the progress bar, drawn exactly during demo
playback with `crl_demo_bar` set, comes after the health widget and the chat/HUD drawers
and before the FPS counter. -/
theorem level_order_amended (g : Game) (hd : g.nodrawers = false)
    (hs : g.gamestate = gamestate_t.GS_LEVEL) (ht : g.stat.gametic ≠ 0) :
    calls g
        = sizeActs g ++ [Act.CRLSurface_assign, Act.R_RenderPlayerView, overlayAct g,
            Act.CRL_StatDrawer]
          ++ timerActs g ++ healthActs g
          ++ [Act.CT_Drawer, Act.UpdateState_or UpdateFlag.I_FULLVIEW, Act.SB_Drawer]
          ++ barActs g ++ fpsActs g ++ mouseActs g ++ pauseActs g ++ tailActs
      ∧ (Act.CRL_DemoBar ∈ calls g ↔ (g.demoplayback = true ∧ g.crl_demo_bar ≠ 0))
      ∧ ∀ pre post, calls g = pre ++ Act.CRL_DemoBar :: post →
          (Act.CT_Drawer ∈ pre ∧ Act.SB_Drawer ∈ pre ∧ Act.CRL_StatDrawer ∈ pre
            ∧ (Act.CRL_DrawTargetsHealth ∈ calls g → Act.CRL_DrawTargetsHealth ∈ pre)
            ∧ (Act.CRL_DrawFPS ∈ calls g → Act.CRL_DrawFPS ∈ post)
            ∧ Act.CT_Drawer ∉ post ∧ Act.SB_Drawer ∉ post
            ∧ Act.CRL_DrawTargetsHealth ∉ post) := by
  have hrest : ∀ a, a ≠ Act.CRL_DrawFPS → (∀ n, a ≠ Act.V_DrawMouseSpeedBox n) →
      (∀ x y n, a ≠ Act.V_DrawPatch x y n) → a ∉ tailActs →
      a ∉ fpsActs g ++ (mouseActs g ++ (pauseActs g ++ tailActs)) := by
    intro a h1 h2 h3 h4
    simp only [List.mem_append, mem_fpsActs, mem_mouseActs, mem_pauseActs, not_or]
    exact ⟨fun h => h1 h.2, fun h => h2 _ h.2, fun h => h3 _ _ _ h.2, h4⟩
  have hbar : Act.CRL_DemoBar ∈ calls g ↔ (g.demoplayback = true ∧ g.crl_demo_bar ≠ 0) := by
    rw [calls_eq, displayActs_level g hd hs ht]
    have ht' := timerActs_not_mem g Act.CRL_DemoBar (by simp)
    have ho : Act.CRL_DemoBar ≠ overlayAct g := by
      rcases overlayAct_cases g with h | h <;> rw [h.2] <;> simp
    simp [mem_sizeActs, mem_healthActs, mem_barActs, mem_fpsActs, mem_mouseActs, mem_pauseActs,
      tailActs, ht', ho]
  refine ⟨?_, hbar, ?_⟩
  · rw [calls_eq, displayActs_level g hd hs ht]
    simp
  · intro pre post hsplit
    have hmem : Act.CRL_DemoBar ∈ calls g := by rw [hsplit]; simp
    have hcond := hbar.1 hmem
    have hb : barActs g = [Act.CRL_DemoBar] := by simp [barActs, hcond]
    have ho : Act.CRL_DemoBar ≠ overlayAct g := by
      rcases overlayAct_cases g with h | h <;> rw [h.2] <;> simp
    have hcalls : calls g
        = (sizeActs g ++ [Act.CRLSurface_assign, Act.R_RenderPlayerView, overlayAct g,
            Act.CRL_StatDrawer] ++ timerActs g ++ healthActs g
            ++ [Act.CT_Drawer, Act.UpdateState_or UpdateFlag.I_FULLVIEW, Act.SB_Drawer])
          ++ Act.CRL_DemoBar :: (fpsActs g ++ (mouseActs g ++ (pauseActs g ++ tailActs))) := by
      rw [calls_eq, displayActs_level g hd hs ht, hb]
      simp
    have hA : Act.CRL_DemoBar ∉ sizeActs g ++ [Act.CRLSurface_assign, Act.R_RenderPlayerView,
        overlayAct g, Act.CRL_StatDrawer] ++ timerActs g ++ healthActs g
        ++ [Act.CT_Drawer, Act.UpdateState_or UpdateFlag.I_FULLVIEW, Act.SB_Drawer] := by
      have ht' := timerActs_not_mem g Act.CRL_DemoBar (by simp)
      simp [mem_sizeActs, mem_healthActs, ht', ho]
    have hB : Act.CRL_DemoBar ∉ fpsActs g ++ (mouseActs g ++ (pauseActs g ++ tailActs)) :=
      hrest _ (by simp) (by simp) (by simp) (by simp [tailActs])
    obtain ⟨hpre, hpost⟩ := split_unique _ _ pre post hA hB (hsplit.symm.trans hcalls)
    subst hpre hpost
    refine ⟨by simp, by simp, by simp, ?_, ?_,
      hrest _ (by simp) (by simp) (by simp) (by simp [tailActs]),
      hrest _ (by simp) (by simp) (by simp) (by simp [tailActs]),
      hrest _ (by simp) (by simp) (by simp) (by simp [tailActs])⟩
    · intro hh
      rw [hcalls] at hh
      rcases List.mem_append.1 hh with h | h
      · exact h
      · rcases List.mem_cons.1 h with h | h
        · cases h
        · exact absurd h (hrest _ (by simp) (by simp) (by simp) (by simp [tailActs]))
    · intro hf
      rw [hcalls] at hf
      rcases List.mem_append.1 hf with h | h
      · exfalso
        have ht' := timerActs_not_mem g Act.CRL_DrawFPS (by simp)
        have ho' : Act.CRL_DrawFPS ≠ overlayAct g := by
          rcases overlayAct_cases g with h | h <;> rw [h.2] <;> simp
        simp [mem_sizeActs, mem_healthActs, ht', ho'] at h
      · rcases List.mem_cons.1 h with h | h
        · cases h
        · exact h

theorem level_order_amended_witness :
    calls playbackGame
        = [Act.CRLSurface_assign, Act.R_RenderPlayerView, Act.CRL_DrawVisPlanes 1,
           Act.CRL_StatDrawer, Act.CRL_DemoTimer 0, Act.CRL_DrawTargetsHealth, Act.CT_Drawer,
           Act.UpdateState_or UpdateFlag.I_FULLVIEW, Act.SB_Drawer]
          ++ Act.CRL_DemoBar :: [Act.CRL_DrawFPS, Act.DrawMessage, Act.MN_Drawer,
           Act.CRL_DrawCriticalMessage, Act.NetUpdate, Act.I_FinishUpdate]
      ∧ Act.SB_Drawer ∈ [Act.CRLSurface_assign, Act.R_RenderPlayerView,
          Act.CRL_DrawVisPlanes 1, Act.CRL_StatDrawer, Act.CRL_DemoTimer 0,
          Act.CRL_DrawTargetsHealth, Act.CT_Drawer, Act.UpdateState_or UpdateFlag.I_FULLVIEW,
          Act.SB_Drawer] :=
  ⟨by decide,
    ((level_order_amended playbackGame rfl rfl (by decide)).2.2
      [Act.CRLSurface_assign, Act.R_RenderPlayerView, Act.CRL_DrawVisPlanes 1,
        Act.CRL_StatDrawer, Act.CRL_DemoTimer 0, Act.CRL_DrawTargetsHealth, Act.CT_Drawer,
        Act.UpdateState_or UpdateFlag.I_FULLVIEW, Act.SB_Drawer]
      [Act.CRL_DrawFPS, Act.DrawMessage, Act.MN_Drawer, Act.CRL_DrawCriticalMessage,
        Act.NetUpdate, Act.I_FinishUpdate] (by decide)).2.1⟩

end CRL

namespace CRL

/-! ## Renderer before compositor -/

theorem statDrawer_mem_iff (g : Game) :
    Act.CRL_StatDrawer ∈ displayActs g
      ↔ g.nodrawers = false ∧ g.gamestate = gamestate_t.GS_LEVEL ∧ g.stat.gametic ≠ 0 := by
  by_cases hn : g.nodrawers = true
  · simp [displayActs, hn]
  · have hd : g.nodrawers = false := by simpa using hn
    by_cases hl : g.gamestate = gamestate_t.GS_LEVEL ∧ g.stat.gametic ≠ 0
    · rw [displayActs_level g hd hl.1 hl.2]
      simp [hd, hl.1, hl.2]
    · rw [displayActs_other g hd hl]
      have hl' : ¬ (g.gamestate = gamestate_t.GS_LEVEL ∧ ¬ g.stat.gametic = 0) := hl
      cases hg : g.gamestate <;>
        simp [hg, hd, hl', mem_sizeActs, mem_mouseActs, mem_pauseActs, tailActs]
      simpa [hg] using hl

theorem level_tail_not_mem (g : Game) (a : Act) (h0 : ∀ n, a ≠ Act.CRL_DemoTimer n)
    (h1 : a ≠ Act.CRL_DrawTargetsHealth) (h2 : a ≠ Act.CT_Drawer)
    (h3 : a ≠ Act.UpdateState_or UpdateFlag.I_FULLVIEW) (h4 : a ≠ Act.SB_Drawer)
    (h5 : a ≠ Act.CRL_DemoBar) (h6 : a ≠ Act.CRL_DrawFPS)
    (h7 : ∀ n, a ≠ Act.V_DrawMouseSpeedBox n) (h8 : ∀ x y n, a ≠ Act.V_DrawPatch x y n)
    (h9 : a ∉ tailActs) :
    a ∉ timerActs g ++ (healthActs g
      ++ ([Act.CT_Drawer, Act.UpdateState_or UpdateFlag.I_FULLVIEW, Act.SB_Drawer]
      ++ (barActs g ++ (fpsActs g ++ (mouseActs g ++ (pauseActs g ++ tailActs)))))) := by
  have ht := timerActs_not_mem g a h0
  simp only [List.mem_append, mem_healthActs, mem_barActs, mem_fpsActs, mem_mouseActs,
    mem_pauseActs, List.mem_cons, List.mem_singleton, List.not_mem_nil, not_or, or_false]
  exact ⟨ht, fun h => h1 h.2, ⟨h2, h3, h4⟩, fun h => h5 h.2, fun h => h6 h.2,
    fun h => h7 _ h.2, fun h => h8 _ _ _ h.2, h9⟩

/-- C14: counter writes precede counter reads within a frame: in every `D_Display` call,
whenever `CRL_StatDrawer` is invoked, `R_RenderPlayerView` has been invoked earlier in the
same call and is not invoked after it. -/
theorem render_before_stats (g : Game) (pre post : List Act)
    (h : calls g = pre ++ Act.CRL_StatDrawer :: post) :
    Act.R_RenderPlayerView ∈ pre ∧ Act.R_RenderPlayerView ∉ post := by
  rw [calls_eq] at h
  have hmem : Act.CRL_StatDrawer ∈ displayActs g := by rw [h]; simp
  obtain ⟨hd, hs, ht⟩ := (statDrawer_mem_iff g).1 hmem
  have ho : ∀ a, a ≠ Act.AM_Drawer → (∀ n, a ≠ Act.CRL_DrawVisPlanes n) → a ≠ overlayAct g := by
    intro a h1 h2
    rcases overlayAct_cases g with hc | hc <;> rw [hc.2]
    · exact h1
    · exact h2 1
  have hA : Act.CRL_StatDrawer
      ∉ sizeActs g ++ [Act.CRLSurface_assign, Act.R_RenderPlayerView, overlayAct g] := by
    have := ho Act.CRL_StatDrawer (by simp) (by simp)
    simp [mem_sizeActs, this]
  have hB := level_tail_not_mem g Act.CRL_StatDrawer (by simp) (by simp) (by simp) (by simp)
    (by simp) (by simp) (by simp) (by simp) (by simp) (by simp [tailActs])
  obtain ⟨hpre, hpost⟩ :=
    split_unique _ _ pre post hA hB (h.symm.trans (displayActs_level g hd hs ht))
  subst hpre hpost
  exact ⟨by simp, level_tail_not_mem g Act.R_RenderPlayerView (by simp) (by simp) (by simp)
    (by simp) (by simp) (by simp) (by simp) (by simp) (by simp) (by simp [tailActs])⟩

theorem render_before_stats_witness :
    calls sampleGame
        = [Act.CRLSurface_assign, Act.R_RenderPlayerView, Act.CRL_DrawVisPlanes 1]
          ++ Act.CRL_StatDrawer :: [Act.CT_Drawer, Act.UpdateState_or UpdateFlag.I_FULLVIEW,
            Act.SB_Drawer, Act.DrawMessage, Act.MN_Drawer, Act.CRL_DrawCriticalMessage,
            Act.NetUpdate, Act.I_FinishUpdate]
      ∧ (Act.R_RenderPlayerView
            ∈ [Act.CRLSurface_assign, Act.R_RenderPlayerView, Act.CRL_DrawVisPlanes 1]
        ∧ Act.R_RenderPlayerView
            ∉ [Act.CT_Drawer, Act.UpdateState_or UpdateFlag.I_FULLVIEW, Act.SB_Drawer,
                Act.DrawMessage, Act.MN_Drawer, Act.CRL_DrawCriticalMessage, Act.NetUpdate,
                Act.I_FinishUpdate]) :=
  ⟨by decide, render_before_stats sampleGame _ _ (by decide)⟩

end CRL

namespace CRL

/-! ## Automap or visplane overlay -/

theorem overlay_not_mem_other (g : Game) (a : Act) (hd : g.nodrawers = false)
    (hs : ¬ (g.gamestate = gamestate_t.GS_LEVEL ∧ g.stat.gametic ≠ 0))
    (h0 : a ≠ Act.R_ExecuteSetViewSize) (h1 : a ≠ Act.CRLSurface_assign)
    (h2 : a ≠ Act.IN_Drawer) (h3 : a ≠ Act.F_Drawer) (h4 : a ≠ Act.D_PageDrawer)
    (h7 : ∀ n, a ≠ Act.V_DrawMouseSpeedBox n) (h8 : ∀ x y n, a ≠ Act.V_DrawPatch x y n)
    (h9 : a ∉ tailActs) : a ∉ displayActs g := by
  rw [displayActs_other g hd hs]
  simp only [List.mem_append, List.mem_cons, mem_sizeActs, mem_mouseActs, mem_pauseActs,
    not_or]
  refine ⟨fun h => h0 h.2, h1, ?_, fun h => h7 _ h.2, fun h => h8 _ _ _ h.2, h9⟩
  cases g.gamestate <;> simp [h2, h3, h4]

/-- C15, as stated, fails: with `nodrawers` set, a `D_Display` call in state Level with
`gametic != 0` invokes neither `AM_Drawer` nor `CRL_DrawVisPlanes`. -/
theorem overlay_exclusive_counterexample :
    nodrawersGame.gamestate = gamestate_t.GS_LEVEL ∧ nodrawersGame.stat.gametic ≠ 0
      ∧ calls nodrawersGame = [] := by
  decide

/-- C15, amended: in every `D_Display` call that draws, in state Level with `gametic != 0`
exactly one of `AM_Drawer` and `CRL_DrawVisPlanes` is invoked, once, `AM_Drawer` if and
only if `automapactive` is set; in every other state neither is invoked; and when
`nodrawers` is set neither is invoked. -/
theorem overlay_exclusive_amended (g : Game) :
    (g.nodrawers = false → g.gamestate = gamestate_t.GS_LEVEL → g.stat.gametic ≠ 0 →
        (calls g).count Act.AM_Drawer = (if g.automapactive = true then 1 else 0)
          ∧ (∀ n, (calls g).count (Act.CRL_DrawVisPlanes n)
              = (if g.automapactive = false ∧ n = 1 then 1 else 0))
          ∧ (Act.AM_Drawer ∈ calls g ↔ g.automapactive = true))
      ∧ (g.nodrawers = false → ¬ (g.gamestate = gamestate_t.GS_LEVEL ∧ g.stat.gametic ≠ 0) →
        Act.AM_Drawer ∉ calls g ∧ ∀ n, Act.CRL_DrawVisPlanes n ∉ calls g)
      ∧ (g.nodrawers = true →
        Act.AM_Drawer ∉ calls g ∧ ∀ n, Act.CRL_DrawVisPlanes n ∉ calls g) := by
  refine ⟨?_, ?_, ?_⟩
  · intro hd hs ht
    have hsz : ∀ a, a ≠ Act.R_ExecuteSetViewSize → (sizeActs g).count a = 0 := by
      intro a ha
      exact List.count_eq_zero.2 (fun h => ha ((mem_sizeActs g a).1 h).2)
    have htl : ∀ a, (∀ n, a ≠ Act.CRL_DemoTimer n) → a ≠ Act.CRL_DrawTargetsHealth →
        a ≠ Act.CT_Drawer → a ≠ Act.UpdateState_or UpdateFlag.I_FULLVIEW → a ≠ Act.SB_Drawer →
        a ≠ Act.CRL_DemoBar → a ≠ Act.CRL_DrawFPS → (∀ n, a ≠ Act.V_DrawMouseSpeedBox n) →
        (∀ x y n, a ≠ Act.V_DrawPatch x y n) → a ∉ tailActs →
        (timerActs g ++ (healthActs g
          ++ ([Act.CT_Drawer, Act.UpdateState_or UpdateFlag.I_FULLVIEW, Act.SB_Drawer]
          ++ (barActs g ++ (fpsActs g ++ (mouseActs g ++ (pauseActs g ++ tailActs))))))).count a
          = 0 := by
      intro a h0 h1 h2 h3 h4 h5 h6 h7 h8 h9
      exact List.count_eq_zero.2 (level_tail_not_mem g a h0 h1 h2 h3 h4 h5 h6 h7 h8 h9)
    have hcount : ∀ a, a ≠ Act.R_ExecuteSetViewSize → a ≠ Act.CRLSurface_assign →
        a ≠ Act.R_RenderPlayerView → a ≠ Act.CRL_StatDrawer →
        (∀ n, a ≠ Act.CRL_DemoTimer n) → a ≠ Act.CRL_DrawTargetsHealth →
        a ≠ Act.CT_Drawer → a ≠ Act.UpdateState_or UpdateFlag.I_FULLVIEW → a ≠ Act.SB_Drawer →
        a ≠ Act.CRL_DemoBar → a ≠ Act.CRL_DrawFPS → (∀ n, a ≠ Act.V_DrawMouseSpeedBox n) →
        (∀ x y n, a ≠ Act.V_DrawPatch x y n) → a ∉ tailActs →
        (calls g).count a = if overlayAct g = a then 1 else 0 := by
      intro a a0 a1 a2 a3 h0 h1 h2 h3 h4 h5 h6 h7 h8 h9
      rw [calls_eq, displayActs_level g hd hs ht]
      simp only [List.count_append, List.count_cons, List.count_nil, hsz a a0,
        htl a h0 h1 h2 h3 h4 h5 h6 h7 h8 h9, beq_iff_eq]
      simp [a1.symm, a2.symm, a3.symm]
    have hAM := hcount Act.AM_Drawer (by simp) (by simp) (by simp) (by simp) (by simp)
      (by simp) (by simp) (by simp) (by simp) (by simp) (by simp) (by simp) (by simp)
      (by simp [tailActs])
    have hVP := fun n => hcount (Act.CRL_DrawVisPlanes n) (by simp) (by simp) (by simp)
      (by simp) (by simp) (by simp) (by simp) (by simp) (by simp) (by simp) (by simp) (by simp)
      (by simp) (by simp [tailActs])
    have hAMc : (calls g).count Act.AM_Drawer = (if g.automapactive = true then 1 else 0) := by
      rw [hAM]
      rcases overlayAct_cases g with h | h <;> simp [h.1, h.2]
    refine ⟨hAMc, ?_, ?_⟩
    · intro n
      rw [hVP n]
      rcases overlayAct_cases g with h | h <;> simp [h.1, h.2]
      by_cases hn : n = 1
      · simp [hn]
      · simp [hn]
        exact fun h1 => hn h1.symm
    · rw [← List.count_pos_iff, hAMc]
      split_ifs with h <;> simp [h]
  · intro hd hs
    exact ⟨by
        rw [calls_eq]
        exact overlay_not_mem_other g _ hd hs (by simp) (by simp) (by simp) (by simp)
          (by simp) (by simp) (by simp) (by simp [tailActs]),
      fun n => by
        rw [calls_eq]
        exact overlay_not_mem_other g _ hd hs (by simp) (by simp) (by simp) (by simp)
          (by simp) (by simp) (by simp) (by simp [tailActs])⟩
  · intro hd
    have hc : calls g = [] := by simp [calls_eq, displayActs, hd]
    simp [hc]

theorem overlay_exclusive_amended_witness :
    (calls sampleGame).count Act.AM_Drawer = (if sampleGame.automapactive = true then 1 else 0)
      ∧ (∀ n, (calls sampleGame).count (Act.CRL_DrawVisPlanes n)
          = (if sampleGame.automapactive = false ∧ n = 1 then 1 else 0))
      ∧ (Act.AM_Drawer ∈ calls sampleGame ↔ sampleGame.automapactive = true) :=
  (overlay_exclusive_amended sampleGame).1 rfl rfl (by decide)

end CRL

namespace CRL

/-! ## The end of a frame -/

theorem displayActs_tail (g : Game) (hd : g.nodrawers = false) :
    displayActs g
      = (sizeActs g ++ ([Act.CRLSurface_assign] ++ (stateActs g
          ++ (mouseActs g ++ pauseActs g)))) ++ tailActs := by
  simp [displayActs, hd]

theorem stateActs_mem (g : Game) (a : Act) (h : a ∈ stateActs g) :
    a = Act.IN_Drawer ∨ a = Act.F_Drawer ∨ a = Act.D_PageDrawer ∨ a ∈ levelActs g := by
  unfold stateActs at h
  cases hg : g.gamestate <;> simp only [hg] at h
  · split_ifs at h
    · simp at h
    · exact Or.inr (Or.inr (Or.inr h))
  · simp at h; exact Or.inl h
  · simp at h; exact Or.inr (Or.inl h)
  · simp at h; exact Or.inr (Or.inr (Or.inl h))

theorem levelActs_not_mem (g : Game) (a : Act) (hr : a ≠ Act.R_RenderPlayerView)
    (ha : a ≠ Act.AM_Drawer) (hv : ∀ n, a ≠ Act.CRL_DrawVisPlanes n)
    (hc : a ≠ Act.CRL_StatDrawer) (h0 : ∀ n, a ≠ Act.CRL_DemoTimer n)
    (h1 : a ≠ Act.CRL_DrawTargetsHealth) (h2 : a ≠ Act.CT_Drawer)
    (h3 : a ≠ Act.UpdateState_or UpdateFlag.I_FULLVIEW) (h4 : a ≠ Act.SB_Drawer)
    (h5 : a ≠ Act.CRL_DemoBar) (h6 : a ≠ Act.CRL_DrawFPS) : a ∉ levelActs g := by
  have ht := timerActs_not_mem g a h0
  have ho : a ≠ overlayAct g := by
    rcases overlayAct_cases g with h | h <;> rw [h.2]
    · exact ha
    · exact hv 1
  simp only [levelActs, List.mem_append, mem_healthActs, mem_barActs, mem_fpsActs,
    List.mem_cons, List.mem_singleton, List.not_mem_nil, not_or, or_false]
  exact ⟨⟨hr, ho, hc⟩, ht, fun h => h1 h.2, ⟨h2, h3, h4⟩, fun h => h5 h.2, fun h => h6 h.2⟩

/-- Nothing of the five closing steps occurs earlier in a frame. -/
theorem head_not_tail (g : Game) (a : Act) (ha : a ∈ tailActs) :
    a ∉ sizeActs g ++ ([Act.CRLSurface_assign] ++ (stateActs g
      ++ (mouseActs g ++ pauseActs g))) := by
  have hne : a = Act.DrawMessage ∨ a = Act.MN_Drawer ∨ a = Act.CRL_DrawCriticalMessage
      ∨ a = Act.NetUpdate ∨ a = Act.I_FinishUpdate := by
    simpa [tailActs] using ha
  have hst : a ∉ stateActs g := by
    intro hm
    rcases stateActs_mem g a hm with h | h | h | h
    · rcases hne with e | e | e | e | e <;> rw [e] at h <;> cases h
    · rcases hne with e | e | e | e | e <;> rw [e] at h <;> cases h
    · rcases hne with e | e | e | e | e <;> rw [e] at h <;> cases h
    · rcases hne with e | e | e | e | e <;> rw [e] at h <;>
        exact levelActs_not_mem g _ (by simp) (by simp) (by simp) (by simp) (by simp)
          (by simp) (by simp) (by simp) (by simp) (by simp) (by simp) h
  simp only [List.mem_append, List.mem_singleton, mem_sizeActs, mem_mouseActs, mem_pauseActs,
    not_or]
  refine ⟨?_, ?_, hst, ?_, ?_⟩ <;>
    rcases hne with e | e | e | e | e <;> rw [e] <;> simp

/-- C16: the critical message is always topmost: every `D_Display` call that draws ends
with `DrawMessage`, `MN_Drawer`, `CRL_DrawCriticalMessage`, `NetUpdate`, `I_FinishUpdate`
in that order, and none of these five is invoked earlier in the call. -/
theorem frame_ends_with_critical_message (g : Game) (hd : g.nodrawers = false) :
    ∃ pre, calls g = pre ++ [Act.DrawMessage, Act.MN_Drawer, Act.CRL_DrawCriticalMessage,
        Act.NetUpdate, Act.I_FinishUpdate]
      ∧ Act.DrawMessage ∉ pre ∧ Act.MN_Drawer ∉ pre ∧ Act.CRL_DrawCriticalMessage ∉ pre
      ∧ Act.NetUpdate ∉ pre ∧ Act.I_FinishUpdate ∉ pre := by
  refine ⟨sizeActs g ++ ([Act.CRLSurface_assign] ++ (stateActs g
      ++ (mouseActs g ++ pauseActs g))), ?_, ?_, ?_, ?_, ?_, ?_⟩
  · rw [calls_eq, displayActs_tail g hd]
    rfl
  all_goals exact head_not_tail g _ (by simp [tailActs])

theorem frame_ends_with_critical_message_witness :
    playbackGame.nodrawers = false
      ∧ ∃ pre, calls playbackGame = pre ++ [Act.DrawMessage, Act.MN_Drawer,
          Act.CRL_DrawCriticalMessage, Act.NetUpdate, Act.I_FinishUpdate]
        ∧ Act.DrawMessage ∉ pre ∧ Act.MN_Drawer ∉ pre ∧ Act.CRL_DrawCriticalMessage ∉ pre
        ∧ Act.NetUpdate ∉ pre ∧ Act.I_FinishUpdate ∉ pre :=
  ⟨rfl, frame_ends_with_critical_message playbackGame rfl⟩

/-! ## Presenting the frame -/

/-- C17, as stated, fails: with `nodrawers` set, `D_Display` returns without presenting
the frame buffer. -/
theorem always_presents_counterexample :
    nodrawersGame.nodrawers = true ∧ calls nodrawersGame = []
      ∧ (calls nodrawersGame).count Act.I_FinishUpdate = 0 := by
  decide

/-- C17, amended: for every engine state with `nodrawers` false, one call of `D_Display`
presents the frame buffer (`I_FinishUpdate`) exactly once, as its last action; with
`nodrawers` set it returns at once, without any action. -/
theorem always_presents_amended (g : Game) :
    (g.nodrawers = false →
        (calls g).count Act.I_FinishUpdate = 1
          ∧ (calls g).getLast? = some Act.I_FinishUpdate)
      ∧ (g.nodrawers = true → calls g = []) := by
  constructor
  · intro hd
    rw [calls_eq, displayActs_tail g hd]
    constructor
    · rw [List.count_append,
        List.count_eq_zero.2 (head_not_tail g Act.I_FinishUpdate (by simp [tailActs]))]
      decide
    · rw [List.getLast?_append]
      rfl
  · intro hd
    simp [calls_eq, displayActs, hd]

theorem always_presents_amended_witness :
    (calls sampleGame).count Act.I_FinishUpdate = 1
      ∧ (calls sampleGame).getLast? = some Act.I_FinishUpdate :=
  (always_presents_amended sampleGame).1 rfl

/-! ## The pending view-size change -/

/-- C18: a pending view-size change is applied before any drawing: in every `D_Display`
call that draws, `R_ExecuteSetViewSize` is invoked if and only if `setsizeneeded` is set,
and when invoked it is the first action of the call and is invoked once. -/
theorem view_size_first (g : Game) (hd : g.nodrawers = false) :
    (Act.R_ExecuteSetViewSize ∈ calls g ↔ g.setsizeneeded = true)
      ∧ (g.setsizeneeded = true →
          ∃ rest, calls g = Act.R_ExecuteSetViewSize :: rest
            ∧ Act.R_ExecuteSetViewSize ∉ rest) := by
  have hrest : Act.R_ExecuteSetViewSize ∉ [Act.CRLSurface_assign] ++ (stateActs g
      ++ (mouseActs g ++ (pauseActs g ++ tailActs))) := by
    have hst : Act.R_ExecuteSetViewSize ∉ stateActs g := by
      intro hm
      rcases stateActs_mem g _ hm with h | h | h | h
      · cases h
      · cases h
      · cases h
      · exact levelActs_not_mem g _ (by simp) (by simp) (by simp) (by simp) (by simp)
          (by simp) (by simp) (by simp) (by simp) (by simp) (by simp) h
    simp [hst, mem_mouseActs, mem_pauseActs, tailActs]
  have hcalls : calls g = sizeActs g ++ ([Act.CRLSurface_assign] ++ (stateActs g
      ++ (mouseActs g ++ (pauseActs g ++ tailActs)))) := by
    simp [calls_eq, displayActs, hd]
  constructor
  · rw [hcalls, List.mem_append, mem_sizeActs]
    constructor
    · rintro (h | h)
      · exact h.1
      · exact absurd h hrest
    · intro h
      exact Or.inl ⟨h, rfl⟩
  · intro hs
    refine ⟨_, ?_, hrest⟩
    rw [hcalls]
    simp [sizeActs, hs]

theorem view_size_first_witness :
    resizeGame.nodrawers = false
      ∧ ((Act.R_ExecuteSetViewSize ∈ calls resizeGame ↔ resizeGame.setsizeneeded = true)
        ∧ (resizeGame.setsizeneeded = true →
            ∃ rest, calls resizeGame = Act.R_ExecuteSetViewSize :: rest
              ∧ Act.R_ExecuteSetViewSize ∉ rest)) :=
  ⟨rfl, view_size_first resizeGame rfl⟩

end CRL

namespace CRL

/-! ## The pause indicator -/

/-- C20, as stated, fails: from state 3, seven consecutive `D_DoAdvanceDemo` calls visit
the states 4, 5, 6, 0, 1, 2, 3 and leave `demosequence` equal to 3, not to 0. -/
theorem demo_cycle_counterexample :
    (demoGame 3).demosequence = 3
      ∧ visitedStates 7 (demoGame 3) = [4, 5, 6, 0, 1, 2, 3]
      ∧ (D_DoAdvanceDemo^[7] (demoGame 3)).demosequence = 3 := by
  decide

/-- C20, amended: for every starting value of `demosequence` among the 7 states (0..6),
seven consecutive `D_DoAdvanceDemo` calls visit each of the 7 states once and leave
`demosequence` equal to its starting value; the call number `i` enters state
`(start + i) mod 7`, so state 0 is entered at call number `7 - start`. -/
theorem demo_cycle_amended (g : Game) (h0 : 0 ≤ g.demosequence) (h6 : g.demosequence ≤ 6) :
    (D_DoAdvanceDemo^[7] g).demosequence = g.demosequence
      ∧ visitedStates 7 g
          = (List.range 7).map (fun i => (g.demosequence + ((i + 1 : Nat) : Int)) % 7)
      ∧ (visitedStates 7 g).Perm [0, 1, 2, 3, 4, 5, 6]
      ∧ (D_DoAdvanceDemo^[7 - g.demosequence.toNat] g).demosequence = 0 := by
  have hv : visitedStates 7 g
      = (List.range 7).map (fun i => nextSequence^[i + 1] g.demosequence) := by
    simp only [visitedStates, iterate_demosequence]
  rw [hv, iterate_demosequence, iterate_demosequence]
  generalize g.demosequence = k at h0 h6
  interval_cases k <;> decide

theorem demo_cycle_amended_witness :
    (0 : Int) ≤ (demoGame 3).demosequence ∧ (demoGame 3).demosequence ≤ 6
      ∧ ((D_DoAdvanceDemo^[7] (demoGame 3)).demosequence = (demoGame 3).demosequence
        ∧ visitedStates 7 (demoGame 3)
            = (List.range 7).map
                (fun i => ((demoGame 3).demosequence + ((i + 1 : Nat) : Int)) % 7)
        ∧ (visitedStates 7 (demoGame 3)).Perm [0, 1, 2, 3, 4, 5, 6]
        ∧ (D_DoAdvanceDemo^[7 - (demoGame 3).demosequence.toNat] (demoGame 3)).demosequence
            = 0) :=
  ⟨by decide, by decide, demo_cycle_amended (demoGame 3) (by decide) (by decide)⟩

end CRL

namespace CRL

/-! ## The table of the demo sequence -/

/-- C21: `D_DoAdvanceDemo` sets the timed states as in the table: entering state 0 sets
`pagetic = 210` and page TITLE, state 1 `pagetic = 140` and page TITLE, state 3
`pagetic = 200` and page CREDIT, state 5 `pagetic = 200` and page ORDER if `gamemode` is
shareware and CREDIT otherwise; each of these sets `gamestate` to `GS_DEMOSCREEN`; entering
the states 2, 4, 6 requests `demo1`, `demo2`, `demo3` when internal demos are enabled. -/
theorem demo_table (g : Game) :
    ((D_DoAdvanceDemo g).demosequence = 0 →
        (D_DoAdvanceDemo g).pagetic = 210 ∧ (D_DoAdvanceDemo g).pagename = some "TITLE"
          ∧ (D_DoAdvanceDemo g).gamestate = gamestate_t.GS_DEMOSCREEN)
      ∧ ((D_DoAdvanceDemo g).demosequence = 1 →
        (D_DoAdvanceDemo g).pagetic = 140 ∧ (D_DoAdvanceDemo g).pagename = some "TITLE"
          ∧ (D_DoAdvanceDemo g).gamestate = gamestate_t.GS_DEMOSCREEN)
      ∧ ((D_DoAdvanceDemo g).demosequence = 3 →
        (D_DoAdvanceDemo g).pagetic = 200 ∧ (D_DoAdvanceDemo g).pagename = some "CREDIT"
          ∧ (D_DoAdvanceDemo g).gamestate = gamestate_t.GS_DEMOSCREEN)
      ∧ ((D_DoAdvanceDemo g).demosequence = 5 →
        (D_DoAdvanceDemo g).pagetic = 200
          ∧ (D_DoAdvanceDemo g).pagename
              = some (if g.gamemode = GameMode_t.shareware then "ORDER" else "CREDIT")
          ∧ (D_DoAdvanceDemo g).gamestate = gamestate_t.GS_DEMOSCREEN)
      ∧ (g.crl_internal_demos ≠ 0 →
        ((D_DoAdvanceDemo g).demosequence = 2 →
            (D_DoAdvanceDemo g).acts = g.acts ++ [Act.UpdateState_or UpdateFlag.I_FULLSCRN,
              Act.G_DeferedPlayDemo "demo1"])
          ∧ ((D_DoAdvanceDemo g).demosequence = 4 →
            (D_DoAdvanceDemo g).acts = g.acts ++ [Act.UpdateState_or UpdateFlag.I_FULLSCRN,
              Act.G_DeferedPlayDemo "demo2"])
          ∧ ((D_DoAdvanceDemo g).demosequence = 6 →
            (D_DoAdvanceDemo g).acts = g.acts ++ [Act.UpdateState_or UpdateFlag.I_FULLSCRN,
              Act.G_DeferedPlayDemo "demo3"])) := by
  simp only [D_DoAdvanceDemo_demosequence]
  refine ⟨?_, ?_, ?_, ?_, ?_⟩
  · intro h
    have h' : Int.tmod (add32 g.demosequence 1) 7 = 0 := h
    simp [D_DoAdvanceDemo, act, h']
  · intro h
    have h' : Int.tmod (add32 g.demosequence 1) 7 = 1 := h
    simp [D_DoAdvanceDemo, act, h']
  · intro h
    have h' : Int.tmod (add32 g.demosequence 1) 7 = 3 := h
    simp [D_DoAdvanceDemo, act, h']
  · intro h
    have h' : Int.tmod (add32 g.demosequence 1) 7 = 5 := h
    simp [D_DoAdvanceDemo, act, h']
  · intro hd
    refine ⟨?_, ?_, ?_⟩
    · intro h
      have h' : Int.tmod (add32 g.demosequence 1) 7 = 2 := h
      simp [D_DoAdvanceDemo, act, h', hd]
    · intro h
      have h' : Int.tmod (add32 g.demosequence 1) 7 = 4 := h
      simp [D_DoAdvanceDemo, act, h', hd]
    · intro h
      have h' : Int.tmod (add32 g.demosequence 1) 7 = 6 := h
      simp [D_DoAdvanceDemo, act, h', hd]

theorem demo_table_witness :
    (D_DoAdvanceDemo (demoGame 4)).demosequence = 5
      ∧ (D_DoAdvanceDemo (demoGame 4)).pagetic = 200
      ∧ (D_DoAdvanceDemo (demoGame 4)).pagename = some "CREDIT"
      ∧ (D_DoAdvanceDemo (demoGame 4)).gamestate = gamestate_t.GS_DEMOSCREEN
      ∧ (D_DoAdvanceDemo (demoGame 1)).acts
          = [Act.UpdateState_or UpdateFlag.I_FULLSCRN, Act.G_DeferedPlayDemo "demo1"] :=
  ⟨by decide,
    ((demo_table (demoGame 4)).2.2.2.1 (by decide)).1,
    ((demo_table (demoGame 4)).2.2.2.1 (by decide)).2.1.trans (by decide),
    ((demo_table (demoGame 4)).2.2.2.1 (by decide)).2.2,
    ((demo_table (demoGame 1)).2.2.2.2 (by decide)).1 (by decide)⟩

end CRL

namespace CRL

/-! ## The page countdown -/

theorem sub32_one_of_range (p : Int) (h : -2147483648 < p ∧ p ≤ 2147483647) :
    sub32 p 1 = p - 1 := by
  unfold sub32 wrap32
  omega

theorem D_PageTicker_pagetic (g : Game) : (D_PageTicker g).pagetic = sub32 g.pagetic 1 := by
  simp only [D_PageTicker, D_AdvanceDemo]
  split_ifs <;> rfl

theorem D_PageTicker_advancedemo (g : Game) :
    (D_PageTicker g).advancedemo = if sub32 g.pagetic 1 < 0 then true else g.advancedemo := by
  simp only [D_PageTicker, D_AdvanceDemo]
  split_ifs <;> rfl

theorem D_PageTicker_keeps (g : Game) :
    (D_PageTicker g).demosequence = g.demosequence ∧ (D_PageTicker g).acts = g.acts
      ∧ (D_PageTicker g).crl_internal_demos = g.crl_internal_demos
      ∧ (D_PageTicker g).gamemode = g.gamemode
      ∧ (D_PageTicker g).gamestate = g.gamestate := by
  simp only [D_PageTicker, D_AdvanceDemo]
  split_ifs <;> exact ⟨rfl, rfl, rfl, rfl, rfl⟩

/-- While the countdown has not passed zero, `i` ticker calls take `i` off `pagetic` and
leave `advancedemo` clear. -/
theorem countdown_running (g : Game) (n : Nat) (hp : g.pagetic = (n : Int))
    (hr : g.pagetic ≤ 2147483647) (ha : g.advancedemo = false) :
    ∀ i : Nat, i ≤ n → (D_PageTicker^[i] g).pagetic = (n : Int) - (i : Int)
      ∧ (D_PageTicker^[i] g).advancedemo = false := by
  intro i
  induction i with
  | zero =>
    intro _
    exact ⟨by simp [hp], ha⟩
  | succ i ih =>
    intro hi
    obtain ⟨h1, h2⟩ := ih (by omega)
    rw [Function.iterate_succ_apply', D_PageTicker_pagetic, D_PageTicker_advancedemo, h1, h2]
    have hs : sub32 ((n : Int) - (i : Int)) 1 = (n : Int) - (i : Int) - 1 :=
      sub32_one_of_range _ (by omega)
    rw [hs]
    refine ⟨by push_cast; ring, ?_⟩
    rw [if_neg (by omega)]

/-- C22, as stated, fails: starting from `pagetic = 3`, the third `D_PageTicker` call
brings `pagetic` to 0 but leaves `advancedemo` false; it becomes true on the fourth call,
when `pagetic` falls below zero. -/
theorem countdown_counterexample :
    (pageGame 3).pagetic = 3 ∧ (pageGame 3).advancedemo = false
      ∧ (D_PageTicker^[3] (pageGame 3)).pagetic = 0
      ∧ (D_PageTicker^[3] (pageGame 3)).advancedemo = false
      ∧ (D_PageTicker^[4] (pageGame 3)).pagetic = -1
      ∧ (D_PageTicker^[4] (pageGame 3)).advancedemo = true := by
  decide

/-- C22, amended: starting from `pagetic = n` (any `n > 0`) and `advancedemo` false,
successive `D_PageTicker` calls decrement `pagetic` by one each; `advancedemo` is still
false after the call at which `pagetic` reaches 0 (the `n`-th) and first becomes true on
the next call, the `n + 1`-th, at which `pagetic` falls below zero. -/
theorem countdown_amended (g : Game) (n : Nat) (hp : g.pagetic = (n : Int))
    (hr : g.pagetic ≤ 2147483647) (ha : g.advancedemo = false) :
    (∀ i : Nat, i ≤ n → (D_PageTicker^[i] g).pagetic = (n : Int) - (i : Int)
        ∧ (D_PageTicker^[i] g).advancedemo = false)
      ∧ (D_PageTicker^[n] g).pagetic = 0
      ∧ (D_PageTicker^[n + 1] g).pagetic = -1
      ∧ (D_PageTicker^[n + 1] g).advancedemo = true := by
  have hrun := countdown_running g n hp hr ha
  obtain ⟨h1, h2⟩ := hrun n (le_refl n)
  have h0 : (D_PageTicker^[n] g).pagetic = 0 := by rw [h1]; simp
  refine ⟨hrun, h0, ?_, ?_⟩
  · rw [Function.iterate_succ_apply', D_PageTicker_pagetic, h0]
    decide
  · rw [Function.iterate_succ_apply', D_PageTicker_advancedemo, h0, if_pos (by decide)]

theorem countdown_amended_witness :
    (D_PageTicker^[210] (pageGame 210)).pagetic = 0
      ∧ (D_PageTicker^[210] (pageGame 210)).advancedemo = false
      ∧ (D_PageTicker^[211] (pageGame 210)).advancedemo = true :=
  ⟨(countdown_amended (pageGame 210) 210 rfl (by decide) rfl).2.1,
    ((countdown_amended (pageGame 210) 210 rfl (by decide) rfl).1 210
      (le_refl 210)).2,
    (countdown_amended (pageGame 210) 210 rfl (by decide) rfl).2.2.2⟩

/-! ## Internal demos disabled -/

theorem D_DoAdvanceDemo_playback_off (g : Game) (k : Int) (hd : g.crl_internal_demos = 0)
    (hk : nextSequence g.demosequence = k) (h246 : k = 2 ∨ k = 4 ∨ k = 6) :
    (D_DoAdvanceDemo g).demosequence = k
      ∧ (D_DoAdvanceDemo g).acts = g.acts ++ [Act.UpdateState_or UpdateFlag.I_FULLSCRN]
      ∧ (D_DoAdvanceDemo g).pagetic = g.pagetic
      ∧ (D_DoAdvanceDemo g).gamestate = g.gamestate
      ∧ (D_DoAdvanceDemo g).crl_internal_demos = 0
      ∧ (D_DoAdvanceDemo g).gamemode = g.gamemode
      ∧ (D_DoAdvanceDemo g).advancedemo = false := by
  have hk' : Int.tmod (add32 g.demosequence 1) 7 = k := hk
  rcases h246 with h | h | h <;> subst h <;> simp [D_DoAdvanceDemo, act, hk', hd]

theorem D_DoAdvanceDemo_page (g : Game) (k : Int) (hk : nextSequence g.demosequence = k)
    (h035 : k = 0 ∨ k = 3 ∨ k = 5) :
    (D_DoAdvanceDemo g).demosequence = k
      ∧ (D_DoAdvanceDemo g).pagetic = (if k = 0 then 210 else 200)
      ∧ (D_DoAdvanceDemo g).gamestate = gamestate_t.GS_DEMOSCREEN
      ∧ (D_DoAdvanceDemo g).acts
          = g.acts ++ (if k = 0 then [Act.S_StartSong "mus_titl" false] else []) := by
  have hk' : Int.tmod (add32 g.demosequence 1) 7 = k := hk
  rcases h035 with h | h | h <;> subst h <;> simp [D_DoAdvanceDemo, act, hk']

/-- C23: with internal demos disabled, `D_DoAdvanceDemo` entering state 2, 4 or 6
requests no demo and leaves `pagetic` and `gamestate` unchanged, so from an expired
countdown the sequence `D_DoAdvanceDemo`, `D_PageTicker`, `D_DoAdvanceDemo` goes from
timed state 1 (resp. 3, 5) to timed state 3 (resp. 5, 0) with that state's `pagetic`,
without any demo being requested; in between, the ticker call sets `advancedemo` again. -/
theorem demos_disabled_bypass (g : Game) (hd : g.crl_internal_demos = 0)
    (hp : g.pagetic < 0) (hk : g.demosequence = 1 ∨ g.demosequence = 3 ∨ g.demosequence = 5) :
    ((D_DoAdvanceDemo g).demosequence = g.demosequence + 1
        ∧ demoRequests ((D_DoAdvanceDemo g).acts.drop g.acts.length) = []
        ∧ (D_DoAdvanceDemo g).pagetic = g.pagetic
        ∧ (D_DoAdvanceDemo g).gamestate = g.gamestate)
      ∧ (-2147483648 < g.pagetic →
          (D_PageTicker (D_DoAdvanceDemo g)).advancedemo = true)
      ∧ ((D_DoAdvanceDemo (D_PageTicker (D_DoAdvanceDemo g))).demosequence
            = (if g.demosequence = 5 then 0 else g.demosequence + 2)
          ∧ (D_DoAdvanceDemo (D_PageTicker (D_DoAdvanceDemo g))).pagetic
            = (if g.demosequence = 5 then 210 else 200)
          ∧ (D_DoAdvanceDemo (D_PageTicker (D_DoAdvanceDemo g))).gamestate
            = gamestate_t.GS_DEMOSCREEN
          ∧ demoRequests
              ((D_DoAdvanceDemo (D_PageTicker (D_DoAdvanceDemo g))).acts.drop g.acts.length)
            = []) := by
  have hnext : nextSequence g.demosequence = g.demosequence + 1 := by
    rcases hk with h | h | h <;> rw [h] <;> decide
  have h246 : g.demosequence + 1 = 2 ∨ g.demosequence + 1 = 4 ∨ g.demosequence + 1 = 6 := by
    omega
  obtain ⟨a1, a2, a3, a4, a5, a6, a7⟩ :=
    D_DoAdvanceDemo_playback_off g _ hd hnext h246
  obtain ⟨b1, b2, b3, b4, b5⟩ := D_PageTicker_keeps (D_DoAdvanceDemo g)
  refine ⟨⟨a1, ?_, a3, a4⟩, ?_, ?_⟩
  · rw [a2]
    simp [demoRequests]
  · intro hmin
    rw [D_PageTicker_advancedemo, a3, sub32_one_of_range _ (by omega), if_pos (by omega)]
  · have hseq : (D_PageTicker (D_DoAdvanceDemo g)).demosequence = g.demosequence + 1 := by
      rw [b1, a1]
    have hacts : (D_PageTicker (D_DoAdvanceDemo g)).acts
        = g.acts ++ [Act.UpdateState_or UpdateFlag.I_FULLSCRN] := by
      rw [b2, a2]
    have hn2 : nextSequence (D_PageTicker (D_DoAdvanceDemo g)).demosequence
        = (if g.demosequence = 5 then 0 else g.demosequence + 2) := by
      rw [hseq]
      rcases hk with h | h | h <;> rw [h] <;> decide
    have h035 : (if g.demosequence = 5 then (0 : Int) else g.demosequence + 2) = 0
        ∨ (if g.demosequence = 5 then (0 : Int) else g.demosequence + 2) = 3
        ∨ (if g.demosequence = 5 then (0 : Int) else g.demosequence + 2) = 5 := by
      rcases hk with h | h | h <;> rw [h] <;> decide
    obtain ⟨c1, c2, c3, c4⟩ :=
      D_DoAdvanceDemo_page (D_PageTicker (D_DoAdvanceDemo g)) _ hn2 h035
    refine ⟨c1, ?_, c3, ?_⟩
    · rw [c2]
      rcases hk with h | h | h <;> rw [h] <;> decide
    · rw [c4, hacts]
      simp only [List.append_assoc, List.drop_left]
      split_ifs <;> simp [demoRequests]

theorem demos_disabled_bypass_witness :
    (noDemosGame 1).crl_internal_demos = 0 ∧ (noDemosGame 1).pagetic < 0
      ∧ (D_DoAdvanceDemo (noDemosGame 1)).demosequence = 2
      ∧ (D_PageTicker (D_DoAdvanceDemo (noDemosGame 1))).advancedemo = true
      ∧ (D_DoAdvanceDemo (D_PageTicker (D_DoAdvanceDemo (noDemosGame 1)))).demosequence = 3
      ∧ (D_DoAdvanceDemo (D_PageTicker (D_DoAdvanceDemo (noDemosGame 1)))).pagetic = 200 :=
  ⟨rfl, by decide,
    (demos_disabled_bypass (noDemosGame 1) rfl (by decide) (Or.inl rfl)).1.1,
    (demos_disabled_bypass (noDemosGame 1) rfl (by decide) (Or.inl rfl)).2.1 (by decide),
    (demos_disabled_bypass (noDemosGame 1) rfl (by decide) (Or.inl rfl)).2.2.1,
    (demos_disabled_bypass (noDemosGame 1) rfl (by decide) (Or.inl rfl)).2.2.2.1⟩

end CRL

namespace CRL

/-! ## The responder chain -/

theorem D_ProcessEvents_nil {ε σ : Type} (c : Responders ε σ) (s : EventState ε σ)
    (h : s.queue = []) : D_ProcessEvents c s = s := by
  rw [D_ProcessEvents]
  have hp : D_PopEvent s = (none, s) := by simp [D_PopEvent, h]
  split
  · rename_i s' heq
    rw [hp] at heq
    simp only [Prod.mk.injEq, true_and] at heq
    exact heq.symm
  · rename_i ev s1 heq
    rw [hp] at heq
    simp at heq

theorem D_ProcessEvents_cons {ε σ : Type} (c : Responders ε σ) (s : EventState ε σ)
    (ev : ε) (rest : List ε) (h : s.queue = ev :: rest) :
    D_ProcessEvents c s
      = D_ProcessEvents c
          { queue := rest, world := (firstMatch c ev s.world).2,
            offers := s.offers ++ (firstMatch c ev s.world).1 } := by
  rw [D_ProcessEvents]
  have hp : D_PopEvent s = (some ev, { s with queue := rest }) := by simp [D_PopEvent, h]
  split
  · rename_i s' heq
    rw [hp] at heq
    simp at heq
  · rename_i ev' s1 heq
    rw [hp] at heq
    simp only [Prod.mk.injEq, Option.some.injEq] at heq
    obtain ⟨he, hs⟩ := heq
    subst he hs
    simp only [respond, firstMatch]
    split_ifs <;> simp_all

/-- The loop as a whole: the queue is drained, block after block. -/
theorem D_ProcessEvents_eq {ε σ : Type} (c : Responders ε σ) :
    ∀ (q : List ε) (s : EventState ε σ), s.queue = q →
      D_ProcessEvents c s
        = { queue := [], world := (drainBlocks c q s.world).2,
            offers := s.offers ++ (drainBlocks c q s.world).1.flatten } := by
  intro q
  induction q with
  | nil =>
    intro s h
    rw [D_ProcessEvents_nil c s h]
    cases s
    simp_all [drainBlocks]
  | cons ev rest ih =>
    intro s h
    rw [D_ProcessEvents_cons c s ev rest h, ih _ rfl]
    simp [drainBlocks]

theorem firstMatch_valid {ε σ : Type} (c : Responders ε σ) (ev : ε) (w : σ) :
    ValidBlock ev (firstMatch c ev w).1 := by
  unfold firstMatch ValidBlock
  split_ifs
  · exact Or.inl rfl
  · exact Or.inr (Or.inl rfl)
  · exact Or.inr (Or.inr ⟨_, rfl⟩)

theorem drainBlocks_valid {ε σ : Type} (c : Responders ε σ) :
    ∀ (q : List ε) (w : σ), List.Forall₂ ValidBlock q (drainBlocks c q w).1 := by
  intro q
  induction q with
  | nil => intro w; exact List.Forall₂.nil
  | cons ev rest ih =>
    intro w
    exact List.Forall₂.cons (firstMatch_valid c ev w) (ih _)

theorem validBlock_first {ε : Type} (ev : ε) (b : List (Offer ε)) (h : ValidBlock ev b) :
    (b.filter (fun o => decide (o.responder = Responder.F_Responder))).map Offer.event = [ev]
      ∧ ((∃ r, (⟨Responder.G_Responder, ev, r⟩ : Offer ε) ∈ b)
          ↔ ((⟨Responder.F_Responder, ev, false⟩ : Offer ε) ∈ b
              ∧ (⟨Responder.MN_Responder, ev, false⟩ : Offer ε) ∈ b))
      ∧ (∀ o ∈ b, o.event = ev) := by
  rcases h with h | h | ⟨r, h⟩ <;> subst h <;> simp

theorem drainBlocks_first {ε σ : Type} (c : Responders ε σ) :
    ∀ (q : List ε) (w : σ),
      ((drainBlocks c q w).1.flatten.filter
        (fun o => decide (o.responder = Responder.F_Responder))).map Offer.event = q := by
  intro q
  induction q with
  | nil => intro w; rfl
  | cons ev rest ih =>
    intro w
    simp only [drainBlocks, List.flatten_cons, List.filter_append, List.map_append, ih]
    rw [(validBlock_first ev _ (firstMatch_valid c ev w)).1]
    rfl

/-- C24: `D_ProcessEvents` drains the event queue fully with first-match-wins semantics:
for every finite queue the loop returns with the queue empty; the responder calls it made
are, event after event in queue order, one block per event of the shape F(true), or
F(false) MN(true), or F(false) MN(false) G; every event is offered to `F_Responder`
exactly once, in queue order; and `G_Responder` receives an event if and only if both
`F_Responder` and `MN_Responder` answered false for it. -/
theorem process_events_first_match {ε σ : Type} (c : Responders ε σ) (s : EventState ε σ) :
    (D_ProcessEvents c s).queue = []
      ∧ (D_ProcessEvents c s).world = (drainBlocks c s.queue s.world).2
      ∧ (D_ProcessEvents c s).offers = s.offers ++ (drainBlocks c s.queue s.world).1.flatten
      ∧ List.Forall₂
          (fun ev b => ValidBlock ev b
            ∧ (∀ o ∈ b, o.event = ev)
            ∧ ((∃ r, (⟨Responder.G_Responder, ev, r⟩ : Offer ε) ∈ b)
              ↔ ((⟨Responder.F_Responder, ev, false⟩ : Offer ε) ∈ b
                  ∧ (⟨Responder.MN_Responder, ev, false⟩ : Offer ε) ∈ b)))
          s.queue (drainBlocks c s.queue s.world).1
      ∧ (((D_ProcessEvents c s).offers.drop s.offers.length).filter
          (fun o => decide (o.responder = Responder.F_Responder))).map Offer.event
        = s.queue := by
  rw [D_ProcessEvents_eq c s.queue s rfl]
  refine ⟨rfl, rfl, rfl, ?_, ?_⟩
  · exact (drainBlocks_valid c s.queue s.world).imp
      (fun {ev b} h => ⟨h, (validBlock_first ev b h).2.2, (validBlock_first ev b h).2.1⟩)
  · simp only [List.drop_left]
    exact drainBlocks_first c s.queue s.world

theorem process_events_first_match_witness :
    (D_ProcessEvents sampleResponders ⟨[1, 2, 3], 0, []⟩).queue = []
      ∧ (D_ProcessEvents sampleResponders ⟨[1, 2, 3], 0, []⟩).offers
        = [⟨Responder.F_Responder, 1, false⟩, ⟨Responder.MN_Responder, 1, false⟩,
           ⟨Responder.G_Responder, 1, true⟩, ⟨Responder.F_Responder, 2, true⟩,
           ⟨Responder.F_Responder, 3, false⟩, ⟨Responder.MN_Responder, 3, true⟩] :=
  ⟨(process_events_first_match sampleResponders ⟨[1, 2, 3], 0, []⟩).1,
    (process_events_first_match sampleResponders ⟨[1, 2, 3], 0, []⟩).2.2.1.trans (by decide)⟩

end CRL

namespace CRL

/-! ## The kills/items/secrets block -/

/-- C25, as stated, fails: with the kills/items/secrets widget enabled and every other
widget off, `CRL_StatDrawer` emits no command at all, so no frag column either: the body
of the `crl_widget_kis` block, the frag widget included, is commented out. -/
theorem frag_widget_counterexample :
    (withKis (sampleState 8 0 0 0 0) 1).crl_widget_kis ≠ 0
      ∧ emitted (withKis (sampleState 8 0 0 0 0) 1) = [] := by
  decide

/-- C25, amended: the kills/items/secrets block of `CRL_StatDrawer` draws nothing, in
deathmatch or not: for every state and every value of `crl_widget_kis` the draw commands
are those emitted with any other value of it, and none of them lies on the rows 152 or 160
of the K/I/S and frag texts. -/
theorem kis_block_draws_nothing (s : State) (m : Int) :
    emitted (withKis s m) = emitted s
      ∧ ∀ c ∈ emitted (withKis s m), c.y ≠ 160 ∧ c.y ≠ 152 := by
  have he : emitted (withKis s m) = emitted s := by
    rw [emitted_eq, emitted_eq]
    rfl
  refine ⟨he, ?_⟩
  intro c hc
  rw [he] at hc
  have hsub := (emitted_pos_sublist s).subset (List.mem_map_of_mem DrawCmd.pos hc)
  have hall : ∀ p ∈ fixedPositions, p.2 ≠ 160 ∧ p.2 ≠ 152 := by decide
  exact hall _ hsub

theorem kis_block_draws_nothing_witness :
    emitted (withKis (sampleState 8 1 1 0 0) 1) = emitted (sampleState 8 1 1 0 0) :=
  (kis_block_draws_nothing (sampleState 8 1 1 0 0) 1).1

end CRL

namespace CRL

/-! ## The range of the demo sequence index -/

theorem nextSequence_range (k : Int) (h0 : -1 ≤ k) (h6 : k ≤ 6) :
    0 ≤ nextSequence k ∧ nextSequence k ≤ 6 ∧ nextSequence k = (k + 1) % 7 := by
  interval_cases k <;> decide

theorem D_StartTitle_demosequence (g : Game) : (D_StartTitle g).demosequence = -1 := rfl

theorem D_Display_demosequence (g : Game) : (D_Display g).demosequence = g.demosequence := by
  rw [D_Display_eq]
  rfl

theorem demosequence_invariant (g : Game) (h : DemoReachable g) :
    -1 ≤ g.demosequence ∧ g.demosequence ≤ 6 := by
  induction h with
  | init g h => rw [h]; decide
  | startTitle g _ _ => rw [D_StartTitle_demosequence]; decide
  | doAdvance g _ ih =>
    rw [D_DoAdvanceDemo_demosequence]
    have := nextSequence_range g.demosequence ih.1 ih.2
    omega
  | advance g _ ih => exact ih
  | pageTicker g _ ih =>
    rw [(D_PageTicker_keeps g).1]
    exact ih
  | display g _ ih =>
    rw [D_Display_demosequence]
    exact ih

/-- C26: the demo sequence index stays inside the 7-state range: from every reachable
state (`demosequence` initially 0, or -1 as set by `D_StartTitle`), `demosequence` is in
0..6 after a `D_DoAdvanceDemo` call and equals `(previous + 1) mod 7`, and the first
`D_DoAdvanceDemo` after `D_StartTitle` enters state 0 (title screen, `pagetic = 210`,
`gamestate` `GS_DEMOSCREEN`). -/
theorem demosequence_in_range (g : Game) (h : DemoReachable g) :
    (-1 ≤ g.demosequence ∧ g.demosequence ≤ 6)
      ∧ (0 ≤ (D_DoAdvanceDemo g).demosequence ∧ (D_DoAdvanceDemo g).demosequence ≤ 6)
      ∧ (D_DoAdvanceDemo g).demosequence = (g.demosequence + 1) % 7
      ∧ ((D_DoAdvanceDemo (D_StartTitle g)).demosequence = 0
          ∧ (D_DoAdvanceDemo (D_StartTitle g)).pagetic = 210
          ∧ (D_DoAdvanceDemo (D_StartTitle g)).pagename = some "TITLE"
          ∧ (D_DoAdvanceDemo (D_StartTitle g)).gamestate = gamestate_t.GS_DEMOSCREEN) := by
  have hinv := demosequence_invariant g h
  have hn := nextSequence_range g.demosequence hinv.1 hinv.2
  refine ⟨hinv, ?_, ?_, ?_⟩
  · rw [D_DoAdvanceDemo_demosequence]
    exact ⟨hn.1, hn.2.1⟩
  · rw [D_DoAdvanceDemo_demosequence]
    exact hn.2.2
  · have hk : nextSequence (D_StartTitle g).demosequence = 0 := by
      rw [D_StartTitle_demosequence]
      decide
    have hk' : Int.tmod (add32 (D_StartTitle g).demosequence 1) 7 = 0 := hk
    obtain ⟨c1, c2, c3, _⟩ := D_DoAdvanceDemo_page (D_StartTitle g) 0 hk (Or.inl rfl)
    refine ⟨c1, by simpa using c2, ?_, c3⟩
    simp [D_DoAdvanceDemo, act, hk']

theorem demosequence_in_range_witness :
    DemoReachable (D_DoAdvanceDemo (D_StartTitle sampleGame))
      ∧ (D_DoAdvanceDemo (D_StartTitle sampleGame)).demosequence = 0
      ∧ (D_DoAdvanceDemo (D_DoAdvanceDemo (D_StartTitle sampleGame))).demosequence
          = ((D_DoAdvanceDemo (D_StartTitle sampleGame)).demosequence + 1) % 7 :=
  ⟨DemoReachable.doAdvance _ (DemoReachable.startTitle _ (DemoReachable.init sampleGame rfl)),
    (demosequence_in_range sampleGame (DemoReachable.init sampleGame rfl)).2.2.2.1,
    (demosequence_in_range (D_DoAdvanceDemo (D_StartTitle sampleGame))
      (DemoReachable.doAdvance _
        (DemoReachable.startTitle _ (DemoReachable.init sampleGame rfl)))).2.2.1⟩

/-! ## The frame on tic zero -/

end CRL
